import Mathlib

/-!
# Desired-state pod specifications of an Elasticsearch cluster

A shallow embedding of `operators/pkg/controller/elasticsearch/version/common.go`
(`NewExpectedPodSpecs`, `podSpecContext`, `NewPod`, `quantityToMegabytes`) together
with the properties its specification states about it.

Conventions of the embedding:

* a Go `(value, error)` result is a pair whose second component is `Option Err`
  (`none` is Go's `nil` error), so that what is returned next to an error stays
  visible; a generator that is a function argument returns `Except Err _`;
* a function that can panic returns an `Option`: `none` is the panic, `some r` the
  return of `r`;
* a Go slice is a `List`, `append` is `++`, a `nil` slice is `[]`;
* a Go `map[string]string` is an association list read with `labelGet` and
  written with `labelSet`;
* an `int32` value is an `Int`; the only loop over an `int32` counts upwards from `0`;
* `DeepCopy` is the identity on immutable values.

Declarations of other packages of the repository that `common.go` only names
(constants, the node count, naming helpers, label and hash helpers) are collected in `Deps` and
every definition is parametric in it. The shared-volume descriptors, the claim
defaulting and the pod template builder are modelled from the specification.
-/

set_option linter.dupNamespace false

namespace ESPodSpec

/-! ## Kubernetes core types: the fields read or written by `common.go` -/

/-- A Go `error`, identified with its message. -/
abbrev Err := String

/-- A Go `map[string]string`. -/
abbrev Labels := List (String × String)

/-- Reading `m[k]`. -/
def labelGet (m : Labels) (k : String) : Option String :=
  (m.find? (fun e => e.1 == k)).map (fun e => e.2)

/-- The assignment `m[k] = v`. -/
def labelSet (m : Labels) (k v : String) : Labels :=
  (k, v) :: m.filter (fun e => !(e.1 == k))

/-- The one source of a `corev1.Volume`. -/
inductive VolumeSource where
  | PersistentVolumeClaim (ClaimName : String)
  | Secret (SecretName : String) (Items : List String)
  | ConfigMap (Name : String) (DefaultMode : Nat)
  | EmptyDir
  | Other (kind : String)
  deriving DecidableEq, Repr, Inhabited

structure Volume where
  Name : String
  VolumeSource : VolumeSource
  deriving DecidableEq, Repr, Inhabited

structure VolumeMount where
  Name : String
  MountPath : String
  ReadOnly : Bool
  deriving DecidableEq, Repr, Inhabited

structure EnvVar where
  Name : String
  Value : String
  deriving DecidableEq, Repr, Inhabited

structure ContainerPort where
  Name : String
  ContainerPort : Nat
  deriving DecidableEq, Repr, Inhabited

structure Probe where
  Exec : List String
  deriving DecidableEq, Repr, Inhabited

structure Affinity where
  PodAntiAffinity : List String
  deriving DecidableEq, Repr, Inhabited

/-- The quantities are byte counts, keyed by resource name. -/
structure ResourceRequirements where
  Requests : List (String × Nat)
  deriving DecidableEq, Repr, Inhabited

structure Container where
  Name : String
  Image : String
  Env : List EnvVar
  VolumeMounts : List VolumeMount
  Ports : List ContainerPort
  Resources : ResourceRequirements
  ReadinessProbe : Option Probe
  deriving DecidableEq, Repr, Inhabited

structure PodSpec where
  Volumes : List Volume
  InitContainers : List Container
  Containers : List Container
  Hostname : String
  Subdomain : String
  TerminationGracePeriodSeconds : Option Int
  Affinity : Option Affinity
  deriving DecidableEq, Repr, Inhabited

structure ObjectMeta where
  Name : String
  Namespace : String
  Labels : Labels
  deriving DecidableEq, Repr, Inhabited

structure PodTemplateSpec where
  ObjectMeta : ObjectMeta
  Spec : PodSpec
  deriving DecidableEq, Repr, Inhabited

structure Pod where
  ObjectMeta : ObjectMeta
  Spec : PodSpec
  deriving DecidableEq, Repr, Inhabited

structure PersistentVolumeClaim where
  Name : String
  Storage : Nat
  deriving DecidableEq, Repr, Inhabited

/-! ## The Elasticsearch resource (`v1alpha1`) and the `pod` package types -/

/-- The settings of `commonv1alpha1.Config`. -/
abbrev Config := List (String × String)

structure CanonicalConfig where
  Settings : List (String × String)
  deriving DecidableEq, Repr, Inhabited

structure UnpackedConfig where
  Settings : List (String × String)
  deriving DecidableEq, Repr, Inhabited

structure Version where
  Major : Nat
  Minor : Nat
  Patch : Nat
  deriving DecidableEq, Repr, Inhabited

structure NodeSpec where
  Name : String
  Config : Option Config
  NodeCount : Int
  PodTemplate : PodTemplateSpec
  VolumeClaimTemplates : List PersistentVolumeClaim
  deriving DecidableEq, Repr, Inhabited

structure ElasticsearchSpec where
  Version : String
  Image : String
  SetVMMaxMapCount : Option Bool
  Nodes : List NodeSpec
  deriving DecidableEq, Repr, Inhabited

structure Elasticsearch where
  Name : String
  Namespace : String
  Spec : ElasticsearchSpec
  deriving DecidableEq, Repr, Inhabited

structure User where
  Name : String
  deriving DecidableEq, Repr, Inhabited

/-- Modelled from the spec: `volume.SecretVolume` is declared outside the sources.
§3 SecretVolumeDescriptor: "volume name, mount path, source secret name (possibly
containing a placeholder token), optional key allow-list". -/
structure SecretVolume where
  name : String
  mountPath : String
  secretName : String
  items : List String
  deriving DecidableEq, Repr, Inhabited

/-- Modelled from the spec: `volume.ConfigMapVolume` is declared outside the
sources; it is the config-map counterpart of the §3 SecretVolumeDescriptor, with
the file mode handed to `NewConfigMapVolumeWithMode`. -/
structure ConfigMapVolume where
  name : String
  mountPath : String
  configMapName : String
  defaultMode : Nat
  deriving DecidableEq, Repr, Inhabited

structure KeystoreResources where
  Volume : Volume
  InitContainer : Container
  Version : String
  deriving DecidableEq, Repr, Inhabited

structure NewPodSpecParams where
  Elasticsearch : Elasticsearch
  UsersSecretVolume : SecretVolume
  ProbeUser : User
  UnicastHostsVolume : ConfigMapVolume
  KeystoreResources : Option KeystoreResources
  NodeSpec : NodeSpec
  deriving DecidableEq, Repr, Inhabited

structure PodSpecContext where
  NodeSpec : NodeSpec
  PodTemplate : PodTemplateSpec
  Config : CanonicalConfig
  deriving DecidableEq, Repr, Inhabited

/-- The three generators handed to `NewExpectedPodSpecs` and `podSpecContext`. -/
structure Generators where
  newEnvironmentVarsFn : NewPodSpecParams → List EnvVar
  newESConfigFn : String → Config → Except Err CanonicalConfig
  newInitContainersFn : String → Option Bool → SecretVolume → String → Except Err (List Container)

/-- What `common.go` names from packages outside the sources: constants of
`v1alpha1`, `pod`, `esvolume`, `initcontainer` and `label`, and the helpers of
`name`, `user`, `certificates`, `settings`, `label`, `version` and `hash`. -/
structure Deps where
  ElasticsearchContainerName : String
  DefaultImageRepository : String
  DefaultTerminationGracePeriodSeconds : Int
  DefaultContainerPorts : List ContainerPort
  NewReadinessProbe : Probe
  DefaultAffinity : String → Affinity
  ElasticInternalUsersSecretName : String → String
  HTTPCertsInternalSecretName : String → String
  TransportCertsSecret : String → String
  ScriptsConfigMap : String → String
  ConfigSecretVolume : String → SecretVolume
  ProbeUserVolumeName : String
  ProbeUserSecretMountPath : String
  HTTPCertificatesSecretVolumeName : String
  HTTPCertificatesSecretVolumeMountPath : String
  TransportCertificatesSecretVolumeName : String
  TransportCertificatesSecretVolumeMountPath : String
  ScriptsVolumeName : String
  ScriptsVolumeMountPath : String
  DefaultLogsVolume : Volume
  DefaultDataVolumeMount : VolumeMount
  DefaultLogsVolumeMount : VolumeMount
  DefaultVolumeClaimTemplates : List PersistentVolumeClaim
  PluginVolumesVolumes : List Volume
  PluginVolumesEsContainerVolumeMounts : List VolumeMount
  InitContainerDefaults : Container → List Container → List Container
  NewPodLabels : Elasticsearch → Version → UnpackedConfig → Labels
  ConfigChecksumLabelName : String
  Parse : String → Except Err Version
  Unpack : CanonicalConfig → Except Err UnpackedConfig
  /-- The method `ElasticsearchSpec.NodeCount` of `v1alpha1`, which `NewExpectedPodSpecs`
  takes as the capacity of its result. -/
  NodeCount : ElasticsearchSpec → Int
  /-- The helper `name.NewPodName`, by the two arguments of its one call. Nothing is
  stated here about two calls on equal arguments: no property below compares the names of
  two pods. -/
  NewPodName : String → NodeSpec → String
  SetTemplateHashLabel : Labels → PodTemplateSpec → Labels

/-! ## `crypto/sha256` (SHA-224) and `fmt.Sprintf("%x", _)` -/

namespace SHA224

/-- Truncation to a 32-bit word. -/
def w32 (n : Nat) : Nat := n % 4294967296

def rotr (x n : Nat) : Nat := w32 ((x >>> n) ||| (x <<< (32 - n)))

def ch (x y z : Nat) : Nat := (x &&& y) ^^^ ((4294967295 - x) &&& z)

def maj (x y z : Nat) : Nat := (x &&& y) ^^^ (x &&& z) ^^^ (y &&& z)

def bsig0 (x : Nat) : Nat := rotr x 2 ^^^ rotr x 13 ^^^ rotr x 22

def bsig1 (x : Nat) : Nat := rotr x 6 ^^^ rotr x 11 ^^^ rotr x 25

def ssig0 (x : Nat) : Nat := rotr x 7 ^^^ rotr x 18 ^^^ (x >>> 3)

def ssig1 (x : Nat) : Nat := rotr x 17 ^^^ rotr x 19 ^^^ (x >>> 10)

/-- Bisection for an integer root: the largest `r` between `lo` and `hi` with
`r ^ k ≤ n`, when there is one, in at most `fuel` halvings. -/
def rootSearch (k n : Nat) : Nat → Nat → Nat → Nat
  | 0, lo, _ => lo
  | fuel + 1, lo, hi =>
    if hi ≤ lo then lo
    else if ((lo + hi + 1) / 2) ^ k ≤ n then rootSearch k n fuel ((lo + hi + 1) / 2) hi
    else rootSearch k n fuel lo ((lo + hi + 1) / 2 - 1)

/-- The first sixty-four prime numbers, those below 312. -/
def primes : List Nat :=
  (List.range 312).filter (fun n => 2 ≤ n && (List.range n).all (fun d => d < 2 || n % d != 0))

/-- The round constants (FIPS 180-4 §4.2.2): the first thirty-two bits of the fractional
parts of the cube roots of the first sixty-four primes. -/
def K : List Nat :=
  primes.map (fun q => rootSearch 3 (q * 2 ^ 96) 40 0 (2 ^ 36) % 2 ^ 32)

/-- The initial words of SHA-224 (FIPS 180-4 §5.3.2): the second thirty-two bits of the
fractional parts of the square roots of the ninth to sixteenth primes. -/
def H0 : List Nat :=
  ((primes.drop 8).take 8).map (fun q => rootSearch 2 (q * 2 ^ 128) 70 0 (2 ^ 68) % 2 ^ 32)

/-- The eight working variables. -/
structure State where
  a : Nat
  b : Nat
  c : Nat
  d : Nat
  e : Nat
  f : Nat
  g : Nat
  h : Nat
  deriving DecidableEq, Repr, Inhabited

/-- The initial hash value of SHA-224. -/
def init : State :=
  ⟨H0.getD 0 0, H0.getD 1 0, H0.getD 2 0, H0.getD 3 0, H0.getD 4 0, H0.getD 5 0, H0.getD 6 0,
   H0.getD 7 0⟩

/-- Padding: the byte `0x80`, zero bytes up to 56 modulo 64, the bit length on 8 bytes. -/
def pad (msg : List Nat) : List Nat :=
  msg ++ [128] ++ List.replicate ((119 - msg.length % 64) % 64) 0
    ++ (List.range 8).map (fun i => ((8 * msg.length) >>> (8 * (7 - i))) % 256)

/-- Big-endian 32-bit words of a byte sequence. -/
def words : List Nat → List Nat
  | a :: b :: c :: d :: rest => (a * 16777216 + b * 65536 + c * 256 + d) :: words rest
  | _ => []

/-- The message schedule, latest word first: `n` more words on top of `w`. -/
def extend : Nat → List Nat → List Nat
  | 0, w => w
  | n + 1, w =>
    extend n (w32 (ssig1 (w.getD 1 0) + w.getD 6 0 + ssig0 (w.getD 14 0) + w.getD 15 0) :: w)

/-- One round, on the pair of a round constant and a schedule word. -/
def round (s : State) (kw : Nat × Nat) : State :=
  let t1 := w32 (s.h + bsig1 s.e + ch s.e s.f s.g + kw.1 + kw.2)
  let t2 := w32 (bsig0 s.a + maj s.a s.b s.c)
  ⟨w32 (t1 + t2), s.a, s.b, s.c, w32 (s.d + t1), s.e, s.f, s.g⟩

/-- The compression of one block of sixteen words. -/
def compress (s : State) (block : List Nat) : State :=
  let r := (K.zip (extend 48 block.reverse).reverse).foldl round s
  ⟨w32 (s.a + r.a), w32 (s.b + r.b), w32 (s.c + r.c), w32 (s.d + r.d),
   w32 (s.e + r.e), w32 (s.f + r.f), w32 (s.g + r.g), w32 (s.h + r.h)⟩

/-- Compression of `n` consecutive blocks. -/
def blocks : Nat → List Nat → State → State
  | 0, _, s => s
  | n + 1, ws, s => blocks n (ws.drop 16) (compress s (ws.take 16))

/-- The state after the whole padded message. -/
def final (msg : List Nat) : State :=
  blocks ((pad msg).length / 64) (words (pad msg)) init

/-- The four bytes of a word, most significant first. -/
def wordBytes (w : Nat) : List Nat :=
  [w / 16777216 % 256, w / 65536 % 256, w / 256 % 256, w % 256]

/-- The digest: `h := sha256.New224(); h.Write(msg); h.Sum(nil)`, 28 bytes. -/
def sum (msg : List Nat) : List Nat :=
  let s := final msg
  [s.a, s.b, s.c, s.d, s.e, s.f, s.g].flatMap wordBytes

end SHA224

def hexDigit (n : Nat) : Char := "0123456789abcdef".toList.getD n '0'

/-- The verb `%x` of `fmt.Sprintf` on a byte slice: two lowercase digits a byte. -/
def hexString (bs : List Nat) : String :=
  String.mk (bs.flatMap (fun b => [hexDigit (b / 16), hexDigit (b % 16)]))

/-- The UTF-8 encoding of a character. -/
def utf8Bytes (c : Char) : List Nat :=
  let n := c.toNat
  if n < 128 then [n]
  else if n < 2048 then [192 + n / 64, 128 + n % 64]
  else if n < 65536 then [224 + n / 4096, 128 + n / 64 % 64, 128 + n % 64]
  else [240 + n / 262144, 128 + n / 4096 % 64, 128 + n / 64 % 64, 128 + n % 64]

/-- The conversion `[]byte(s)`: the bytes of the string, which Go holds in UTF-8. -/
def stringBytes (s : String) : List Nat := s.toList.flatMap utf8Bytes

/-! ## The `volume` package -/

/-- Modelled from the spec: `volume.NewSelectiveSecretVolumeWithMountPath` is outside
the sources; it fills the §3 SecretVolumeDescriptor with its key allow-list. -/
def NewSelectiveSecretVolumeWithMountPath (secretName name mountPath : String)
    (projectedSecrets : List String) : SecretVolume :=
  { name := name, mountPath := mountPath, secretName := secretName, items := projectedSecrets }

/-- Modelled from the spec: `volume.NewSecretVolumeWithMountPath` is outside the
sources; it fills the §3 SecretVolumeDescriptor without a key allow-list. -/
def NewSecretVolumeWithMountPath (secretName name mountPath : String) : SecretVolume :=
  NewSelectiveSecretVolumeWithMountPath secretName name mountPath []

/-- Modelled from the spec: `volume.NewConfigMapVolumeWithMode` is outside the sources;
the config-map counterpart of the §3 descriptor. -/
def NewConfigMapVolumeWithMode (configMapName name mountPath : String) (defaultMode : Nat) :
    ConfigMapVolume :=
  { name := name, mountPath := mountPath, configMapName := configMapName,
    defaultMode := defaultMode }

/-- Modelled from the spec: the method `SecretVolume.Volume` is outside the sources; a
volume of the descriptor's name whose source is the descriptor's secret (§3, §4.3). -/
def SecretVolume.Volume (sv : SecretVolume) : Volume :=
  { Name := sv.name, VolumeSource := .Secret sv.secretName sv.items }

/-- Modelled from the spec: the method `SecretVolume.VolumeMount` is outside the
sources; the mount of the descriptor's volume at its mount path (§3). -/
def SecretVolume.VolumeMount (sv : SecretVolume) : VolumeMount :=
  { Name := sv.name, MountPath := sv.mountPath, ReadOnly := true }

/-- Modelled from the spec: the method `ConfigMapVolume.Volume` is outside the sources;
a volume of the descriptor's name whose source is the descriptor's config map. -/
def ConfigMapVolume.Volume (cm : ConfigMapVolume) : Volume :=
  { Name := cm.name, VolumeSource := .ConfigMap cm.configMapName cm.defaultMode }

/-- Modelled from the spec: the method `ConfigMapVolume.VolumeMount` is outside the
sources; the mount of the descriptor's volume at its mount path. -/
def ConfigMapVolume.VolumeMount (cm : ConfigMapVolume) : VolumeMount :=
  { Name := cm.name, MountPath := cm.mountPath, ReadOnly := true }

/-! ## The `defaults` package: claim defaulting and the pod template builder -/

/-- Merge under the user's precedence: the entries of the second list are appended one by
one, each unless an entry of the same key is already there. -/
def appendUnlessPresent {α : Type} (key : α → String) : List α → List α → List α
  | acc, [] => acc
  | acc, x :: xs =>
    appendUnlessPresent key (if acc.any (fun y => key y == key x) then acc else acc ++ [x]) xs

/-- Modelled from the spec: `defaults.AppendDefaultPVCs` is outside the sources. §4.1:
the node group's volume-claim templates are augmented "with service-wide defaults
(appending, never replacing, user-declared claims)"; the caller's comment adds that the
data volume is included "unless specified differently in the pod template". A default
claim is appended unless a claim or a pod template volume of its name is declared. -/
def AppendDefaultPVCs (existing : List PersistentVolumeClaim) (podSpec : PodSpec) :
    List PersistentVolumeClaim → List PersistentVolumeClaim
  | [] => existing
  | d :: ds =>
    AppendDefaultPVCs
      (if existing.any (fun c => c.Name == d.Name) || podSpec.Volumes.any (fun v => v.Name == d.Name)
       then existing else existing ++ [d])
      podSpec ds

/-- Apply `f` to the first element satisfying `p`. -/
def modifyFirst {α : Type} (p : α → Bool) (f : α → α) : List α → List α
  | [] => []
  | x :: xs => if p x then f x :: xs else x :: modifyFirst p f xs

/-- Modelled from the spec: `defaults.PodTemplateBuilder` is outside the sources. §2:
"a chainable assembler that merges a user-supplied template with computed defaults
(image, resource requests, probes, affinity, ports, grace period, volumes, volume mounts,
init containers, labels, environment) under explicit override precedence". The Go field
`Container` points at the main container inside `PodTemplate`; here it is read by
`PodTemplateBuilder.Container` and written by `PodTemplateBuilder.onContainer`. -/
structure PodTemplateBuilder where
  PodTemplate : PodTemplateSpec
  containerName : String
  deriving DecidableEq, Repr, Inhabited

/-- The first container of the given name, if the template has one. -/
def mainContainer? (t : PodTemplateSpec) (containerName : String) : Option Container :=
  t.Spec.Containers.find? (fun c => c.Name == containerName)

/-- The main container of a template: the first container of the given name. -/
def mainContainer (t : PodTemplateSpec) (containerName : String) : Container :=
  (mainContainer? t containerName).getD default

/-- The builder's `Container`. -/
def PodTemplateBuilder.Container (b : PodTemplateBuilder) : ESPodSpec.Container :=
  mainContainer b.PodTemplate b.containerName

/-- The volume mounts of the builder's `Container`, if the template has that container. -/
def PodTemplateBuilder.mounts? (b : PodTemplateBuilder) : Option (List VolumeMount) :=
  (mainContainer? b.PodTemplate b.containerName).map (fun c => c.VolumeMounts)

/-- A write through the builder's `Container` pointer. -/
def PodTemplateBuilder.onContainer (b : PodTemplateBuilder)
    (f : ESPodSpec.Container → ESPodSpec.Container) : PodTemplateBuilder :=
  { b with PodTemplate := { b.PodTemplate with Spec := { b.PodTemplate.Spec with
      Containers := modifyFirst (fun c => c.Name == b.containerName) f
        b.PodTemplate.Spec.Containers } } }

/-- A write to the pod spec of the builder's template. -/
def PodTemplateBuilder.onSpec (b : PodTemplateBuilder) (f : PodSpec → PodSpec) :
    PodTemplateBuilder :=
  { b with PodTemplate := { b.PodTemplate with Spec := f b.PodTemplate.Spec } }

/-- Modelled from the spec: `defaults.NewPodTemplateBuilder` is outside the sources.
§4.2 step 1: "Start from the user-supplied template for the node group (preserves any
fields the operator-user set explicitly)"; the main container is created when the
template declares none of that name. -/
def NewPodTemplateBuilder (base : PodTemplateSpec) (containerName : String) :
    PodTemplateBuilder :=
  if base.Spec.Containers.any (fun c => c.Name == containerName) then
    { PodTemplate := base, containerName := containerName }
  else
    { PodTemplate := { base with Spec := { base.Spec with
        Containers := base.Spec.Containers ++ [{ (default : Container) with Name := containerName }] } },
      containerName := containerName }

/-- Modelled from the spec: `PodTemplateBuilder.WithDockerImage` is outside the sources.
§4.2 step 2: "container image (resolved from cluster version if unset)": the template's
image is kept, else the cluster's custom image, else the default one. -/
def PodTemplateBuilder.WithDockerImage (b : PodTemplateBuilder)
    (customImage defaultImage : String) : PodTemplateBuilder :=
  b.onContainer (fun c =>
    if c.Image != "" then c
    else if customImage != "" then { c with Image := customImage }
    else { c with Image := defaultImage })

/-- A floor on requests: each default quantity raises a lower or absent request. -/
def floorRequests (user defaults : List (String × Nat)) : List (String × Nat) :=
  user.map (fun e => (e.1, max e.2 (((defaults.find? (fun d => d.1 == e.1)).map (fun d => d.2)).getD 0)))
    ++ defaults.filter (fun d => !(user.any (fun e => e.1 == d.1)))

/-- Modelled from the spec: `PodTemplateBuilder.WithResources` is outside the sources.
§4.2 step 2: "minimum memory request (a floor, not a cap ...; never lowers a user-set
higher value)". -/
def PodTemplateBuilder.WithResources (b : PodTemplateBuilder) (resources : ResourceRequirements) :
    PodTemplateBuilder :=
  b.onContainer (fun c =>
    { c with Resources := { Requests := floorRequests c.Resources.Requests resources.Requests } })

/-- Modelled from the spec: `PodTemplateBuilder.WithTerminationGracePeriod` is outside
the sources. §4.2 step 2 overlays the termination grace period on the fields the user
did not set. -/
def PodTemplateBuilder.WithTerminationGracePeriod (b : PodTemplateBuilder) (period : Int) :
    PodTemplateBuilder :=
  b.onSpec (fun s =>
    { s with TerminationGracePeriodSeconds := some (s.TerminationGracePeriodSeconds.getD period) })

/-- Modelled from the spec: `PodTemplateBuilder.WithPorts` is outside the sources. §4.2
step 2 overlays the default container ports on a template that declares none. -/
def PodTemplateBuilder.WithPorts (b : PodTemplateBuilder) (ports : List ContainerPort) :
    PodTemplateBuilder :=
  b.onContainer (fun c => if c.Ports.isEmpty then { c with Ports := ports } else c)

/-- Modelled from the spec: `PodTemplateBuilder.WithReadinessProbe` is outside the
sources. §4.2 step 2 overlays a readiness probe on a template that declares none. -/
def PodTemplateBuilder.WithReadinessProbe (b : PodTemplateBuilder) (readinessProbe : Probe) :
    PodTemplateBuilder :=
  b.onContainer (fun c => { c with ReadinessProbe := some (c.ReadinessProbe.getD readinessProbe) })

/-- Modelled from the spec: `PodTemplateBuilder.WithAffinity` is outside the sources.
§4.2 step 2 overlays the affinity rules on a template that declares none. -/
def PodTemplateBuilder.WithAffinity (b : PodTemplateBuilder) (affinity : Affinity) :
    PodTemplateBuilder :=
  b.onSpec (fun s => { s with Affinity := some (s.Affinity.getD affinity) })

/-- Modelled from the spec: `PodTemplateBuilder.WithEnv` is outside the sources. §4.2
step 3 attaches the generated variables; §4.2 step 1 keeps what the user set. -/
def PodTemplateBuilder.WithEnv (b : PodTemplateBuilder) (vars : List EnvVar) : PodTemplateBuilder :=
  b.onContainer (fun c => { c with Env := appendUnlessPresent EnvVar.Name c.Env vars })

/-- Modelled from the spec: `PodTemplateBuilder.WithVolumes` is outside the sources.
§4.2 step 5 attaches the volumes; §4.2 step 1 keeps what the user set, and the caller
says of the data volume "unless specified differently in the pod template": a volume is
appended unless the template already has one of its name. -/
def PodTemplateBuilder.WithVolumes (b : PodTemplateBuilder) (volumes : List Volume) :
    PodTemplateBuilder :=
  b.onSpec (fun s => { s with Volumes := appendUnlessPresent Volume.Name s.Volumes volumes })

/-- Modelled from the spec: `PodTemplateBuilder.WithVolumeMounts` is outside the
sources. §4.2 step 5 attaches the "matching volume mounts" to the main container, by the
rule of `WithVolumes`. -/
def PodTemplateBuilder.WithVolumeMounts (b : PodTemplateBuilder) (volumeMounts : List VolumeMount) :
    PodTemplateBuilder :=
  b.onContainer (fun c =>
    { c with VolumeMounts := appendUnlessPresent VolumeMount.Name c.VolumeMounts volumeMounts })

/-- Modelled from the spec: `PodTemplateBuilder.WithInitContainers` is outside the
sources. §4.2 steps 4 and 6 attach init containers, by the rule of `WithVolumes`. -/
def PodTemplateBuilder.WithInitContainers (b : PodTemplateBuilder)
    (initContainers : List ESPodSpec.Container) : PodTemplateBuilder :=
  b.onSpec (fun s =>
    { s with InitContainers := appendUnlessPresent ESPodSpec.Container.Name s.InitContainers initContainers })

/-- Modelled from the spec: `PodTemplateBuilder.WithInitContainerDefaults` is outside
the sources and the specification does not describe it: it rewrites the init containers
from the main container, by a rule left as the parameter `Deps.InitContainerDefaults`. -/
def PodTemplateBuilder.WithInitContainerDefaults (b : PodTemplateBuilder) (D : Deps) :
    PodTemplateBuilder :=
  b.onSpec (fun s => { s with InitContainers := D.InitContainerDefaults b.Container s.InitContainers })

/-- Modelled from the spec: `PodTemplateBuilder.WithLabels` is outside the sources. §2
lists the labels among the fields merged under the user's precedence: a label is set
unless the template already has its key. -/
def PodTemplateBuilder.WithLabels (b : PodTemplateBuilder) (labels : Labels) : PodTemplateBuilder :=
  { b with PodTemplate := { b.PodTemplate with ObjectMeta := { b.PodTemplate.ObjectMeta with
      Labels := appendUnlessPresent Prod.fst b.PodTemplate.ObjectMeta.Labels labels } } }

/-! ## `common.go` -/

/-- The requests of `DefaultResources`: 2Gi of memory. -/
def DefaultResources : ResourceRequirements :=
  { Requests := [("memory", 2 * 1024 * 1024 * 1024)] }

/-- The local `podNamePlaceholder` of `podSpecContext`. -/
def podNamePlaceholder : String := "pod-name-placeholder"

/-- The `ClaimName` literal of `podSpecContext`. -/
def claimNamePlaceholder : String := "claim-name-placeholder"

/-- The local `probeSecret` of `podSpecContext`. -/
def probeSecret (D : Deps) (p : NewPodSpecParams) : SecretVolume :=
  NewSelectiveSecretVolumeWithMountPath (D.ElasticInternalUsersSecretName p.Elasticsearch.Name)
    D.ProbeUserVolumeName D.ProbeUserSecretMountPath [p.ProbeUser.Name]

/-- The local `httpCertificatesVolume` of `podSpecContext`. -/
def httpCertificatesVolume (D : Deps) (p : NewPodSpecParams) : SecretVolume :=
  NewSecretVolumeWithMountPath (D.HTTPCertsInternalSecretName p.Elasticsearch.Name)
    D.HTTPCertificatesSecretVolumeName D.HTTPCertificatesSecretVolumeMountPath

/-- The local `transportCertificatesVolume` of `podSpecContext`. -/
def transportCertificatesVolume (D : Deps) : SecretVolume :=
  NewSecretVolumeWithMountPath (D.TransportCertsSecret podNamePlaceholder)
    D.TransportCertificatesSecretVolumeName D.TransportCertificatesSecretVolumeMountPath

/-- The local `configVolume` of `podSpecContext`. -/
def configVolume (D : Deps) : SecretVolume :=
  D.ConfigSecretVolume podNamePlaceholder

/-- The local `scriptsVolume` of `podSpecContext`. -/
def scriptsVolume (D : Deps) (p : NewPodSpecParams) : ConfigMapVolume :=
  NewConfigMapVolumeWithMode (D.ScriptsConfigMap p.Elasticsearch.Name)
    D.ScriptsVolumeName D.ScriptsVolumeMountPath 0o755

/-- The local `persistentVolumes` of `podSpecContext`: the loop over the claim templates. -/
def persistentVolumes (p : NewPodSpecParams) : List Volume :=
  p.NodeSpec.VolumeClaimTemplates.map (fun claimTemplate =>
    { Name := claimTemplate.Name,
      VolumeSource := .PersistentVolumeClaim claimNamePlaceholder })

/-- The argument of `WithVolumes` in `podSpecContext`. -/
def podVolumes (D : Deps) (p : NewPodSpecParams) : List Volume :=
  persistentVolumes p ++
    (D.PluginVolumesVolumes ++
      [D.DefaultLogsVolume,
       p.UsersSecretVolume.Volume,
       p.UnicastHostsVolume.Volume,
       (probeSecret D p).Volume,
       (transportCertificatesVolume D).Volume,
       (httpCertificatesVolume D p).Volume,
       (scriptsVolume D p).Volume,
       (configVolume D).Volume])

/-- The argument of `WithVolumeMounts` in `podSpecContext`. -/
def podVolumeMounts (D : Deps) (p : NewPodSpecParams) : List VolumeMount :=
  D.PluginVolumesEsContainerVolumeMounts ++
    [D.DefaultDataVolumeMount,
     D.DefaultLogsVolumeMount,
     p.UsersSecretVolume.VolumeMount,
     p.UnicastHostsVolume.VolumeMount,
     (probeSecret D p).VolumeMount,
     (transportCertificatesVolume D).VolumeMount,
     (httpCertificatesVolume D p).VolumeMount,
     (scriptsVolume D p).VolumeMount,
     (configVolume D).VolumeMount]

/-- The builder of `podSpecContext` before the init containers are generated. -/
def defaultsBuilder (D : Deps) (p : NewPodSpecParams) (G : Generators) : PodTemplateBuilder :=
  ((((((NewPodTemplateBuilder p.NodeSpec.PodTemplate D.ElasticsearchContainerName
    |>.WithDockerImage p.Elasticsearch.Spec.Image
        (D.DefaultImageRepository ++ ":" ++ p.Elasticsearch.Spec.Version))
    |>.WithResources DefaultResources)
    |>.WithTerminationGracePeriod D.DefaultTerminationGracePeriodSeconds)
    |>.WithPorts D.DefaultContainerPorts)
    |>.WithReadinessProbe D.NewReadinessProbe)
    |>.WithAffinity (D.DefaultAffinity p.Elasticsearch.Name))
    |>.WithEnv (G.newEnvironmentVarsFn p)

/-- The builder of `podSpecContext` once volumes, mounts, keystore resources and init
containers are attached. -/
def volumesBuilder (D : Deps) (p : NewPodSpecParams) (G : Generators)
    (initContainers : List Container) : PodTemplateBuilder :=
  let builder := ((defaultsBuilder D p G).WithVolumes (podVolumes D p)).WithVolumeMounts
    (podVolumeMounts D p)
  let builder :=
    match p.KeystoreResources with
    | some keystore => (builder.WithVolumes [keystore.Volume]).WithInitContainers [keystore.InitContainer]
    | none => builder
  (builder.WithInitContainers initContainers).WithInitContainerDefaults D

/-- The labels of `podSpecContext`: the pod labels, with the checksum of the keystore
version when keystore resources are present. -/
def podLabels (D : Deps) (p : NewPodSpecParams) (esVersion : Version)
    (unpackedCfg : UnpackedConfig) : Labels :=
  let labels := D.NewPodLabels p.Elasticsearch esVersion unpackedCfg
  match p.KeystoreResources with
  | some keystore =>
    labelSet labels D.ConfigChecksumLabelName
      (hexString (SHA224.sum (stringBytes keystore.Version)))
  | none => labels

/-- The function `podSpecContext`: a new PodSpecContext for an Elasticsearch node. On an
error the zero PodSpecContext is returned with it. -/
def podSpecContext (D : Deps) (p : NewPodSpecParams) (G : Generators) :
    PodSpecContext × Option Err :=
  let builder := defaultsBuilder D p G
  match G.newInitContainersFn builder.Container.Image p.Elasticsearch.Spec.SetVMMaxMapCount
      (transportCertificatesVolume D) p.Elasticsearch.Name with
  | .error err => (default, some err)
  | .ok initContainers =>
    let builder := volumesBuilder D p G initContainers
    let config := p.NodeSpec.Config.getD []
    match G.newESConfigFn p.Elasticsearch.Name config with
    | .error err => (default, some err)
    | .ok esConfig =>
      match D.Unpack esConfig with
      | .error err => (default, some err)
      | .ok unpackedCfg =>
        match D.Parse p.Elasticsearch.Spec.Version with
        | .error err => (default, some err)
        | .ok esVersion =>
          let builder := builder.WithLabels (podLabels D p esVersion unpackedCfg)
          ({ NodeSpec := p.NodeSpec, PodTemplate := builder.PodTemplate, Config := esConfig }, none)

/-- The `params` built in the inner loop of `NewExpectedPodSpecs`. -/
def replicaParams (es : Elasticsearch) (paramsTmpl : NewPodSpecParams) (node : NodeSpec) :
    NewPodSpecParams :=
  { Elasticsearch := es,
    UsersSecretVolume := paramsTmpl.UsersSecretVolume,
    ProbeUser := paramsTmpl.ProbeUser,
    UnicastHostsVolume := paramsTmpl.UnicastHostsVolume,
    KeystoreResources := paramsTmpl.KeystoreResources,
    NodeSpec := node }

/-- The inner loop `for i := int32(0); i < node.NodeCount; i++` of `NewExpectedPodSpecs`,
with the number of iterations left as first argument and `podSpecs` as accumulator. -/
def replicasLoop (D : Deps) (es : Elasticsearch) (paramsTmpl : NewPodSpecParams) (G : Generators)
    (node : NodeSpec) : Nat → List PodSpecContext → List PodSpecContext × Option Err
  | 0, podSpecs => (podSpecs, none)
  | n + 1, podSpecs =>
    match podSpecContext D (replicaParams es paramsTmpl node) G with
    | (_, some err) => ([], some err)
    | (podSpecCtx, none) => replicasLoop D es paramsTmpl G node n (podSpecs ++ [podSpecCtx])

/-- The node of the outer loop once the default claims are added to it. -/
def withDefaultPVCs (D : Deps) (node : NodeSpec) : NodeSpec :=
  { node with VolumeClaimTemplates :=
      AppendDefaultPVCs node.VolumeClaimTemplates node.PodTemplate.Spec D.DefaultVolumeClaimTemplates }

/-- The outer loop `for _, node := range es.Spec.Nodes` of `NewExpectedPodSpecs`. The
inner loop runs `i` from `0` while `i < node.NodeCount`: `node.NodeCount.toNat` times. -/
def nodesLoop (D : Deps) (es : Elasticsearch) (paramsTmpl : NewPodSpecParams) (G : Generators) :
    List NodeSpec → List PodSpecContext → List PodSpecContext × Option Err
  | [], podSpecs => (podSpecs, none)
  | node :: rest, podSpecs =>
    let node := withDefaultPVCs D node
    match replicasLoop D es paramsTmpl G node node.NodeCount.toNat podSpecs with
    | (_, some err) => ([], some err)
    | (podSpecs, none) => nodesLoop D es paramsTmpl G rest podSpecs

/-- The function `NewExpectedPodSpecs`: the PodSpecContexts of all Elasticsearch nodes of
the cluster. It starts with `make([]pod.PodSpecContext, 0, es.Spec.NodeCount())`, which
panics on a negative capacity (`makeslice: cap out of range`): the result is then `none`.
The exhaustion of memory by a large capacity is outside the embedding. -/
def NewExpectedPodSpecs (D : Deps) (es : Elasticsearch) (paramsTmpl : NewPodSpecParams)
    (G : Generators) : Option (List PodSpecContext × Option Err) :=
  if D.NodeCount es.Spec < 0 then none
  else some (nodesLoop D es paramsTmpl G es.Spec.Nodes [])

/-- The function `NewPod`: a pod from the template of the context. -/
def NewPod (D : Deps) (es : Elasticsearch) (podSpecCtx : PodSpecContext) : Pod :=
  let template := podSpecCtx.PodTemplate
  let esPod : Pod := { ObjectMeta := template.ObjectMeta, Spec := template.Spec }
  let esPod : Pod := { esPod with ObjectMeta := { esPod.ObjectMeta with
    Labels := D.SetTemplateHashLabel esPod.ObjectMeta.Labels template } }
  let esPod : Pod := { esPod with ObjectMeta := { esPod.ObjectMeta with
    Name := D.NewPodName es.Name podSpecCtx.NodeSpec } }
  let esPod : Pod := { esPod with ObjectMeta := { esPod.ObjectMeta with Namespace := es.Namespace } }
  let esPod : Pod :=
    if esPod.Spec.Hostname = "" then
      { esPod with Spec := { esPod.Spec with Hostname := esPod.ObjectMeta.Name } }
    else esPod
  let esPod : Pod :=
    if esPod.Spec.Subdomain = "" then
      { esPod with Spec := { esPod.Spec with Subdomain := es.Name } }
    else esPod
  esPod

/-- The function `quantityToMegabytes`, on the byte value of the quantity. -/
def quantityToMegabytes (q : Int) : Int := (q.tdiv 1024).tdiv 1024

/-! ## Reference notions used to state the properties -/

/-- The replicas of the cluster in node-group declaration order, then replica ordinal
order: the node group of each replica, with its default claims. -/
def replicas (D : Deps) (es : Elasticsearch) : List NodeSpec :=
  es.Spec.Nodes.flatMap (fun node => List.replicate node.NodeCount.toNat (withDefaultPVCs D node))

/-- The error that stops the building of one replica, if any: the init-container
generator error, else the configuration generator error, else the configuration unpack
error, else the version parse error. -/
def replicaError (D : Deps) (p : NewPodSpecParams) (G : Generators) : Option Err :=
  match G.newInitContainersFn (defaultsBuilder D p G).Container.Image
      p.Elasticsearch.Spec.SetVMMaxMapCount (transportCertificatesVolume D) p.Elasticsearch.Name with
  | .error err => some err
  | .ok _ =>
    match G.newESConfigFn p.Elasticsearch.Name (p.NodeSpec.Config.getD []) with
    | .error err => some err
    | .ok esConfig =>
      match D.Unpack esConfig with
      | .error err => some err
      | .ok _ =>
        match D.Parse p.Elasticsearch.Spec.Version with
        | .error err => some err
        | .ok _ => none

/-- The error of the first failing replica, in node-group then ordinal order. -/
def firstReplicaError (D : Deps) (es : Elasticsearch) (paramsTmpl : NewPodSpecParams)
    (G : Generators) : Option Err :=
  (replicas D es).findSome? (fun node => replicaError D (replicaParams es paramsTmpl node) G)

/-- The nine mounts every main container is meant to carry, in the order in which
`podSpecContext` lists them after the plugin mounts. -/
def requiredVolumeMounts (D : Deps) (p : NewPodSpecParams) : List VolumeMount :=
  [D.DefaultDataVolumeMount,
   D.DefaultLogsVolumeMount,
   p.UsersSecretVolume.VolumeMount,
   p.UnicastHostsVolume.VolumeMount,
   (probeSecret D p).VolumeMount,
   (transportCertificatesVolume D).VolumeMount,
   (httpCertificatesVolume D p).VolumeMount,
   (scriptsVolume D p).VolumeMount,
   (configVolume D).VolumeMount]

/-- The volumes `podSpecContext` attaches whose reference is known at generation time:
the plugin and logs volumes, the two volumes of the caller, the probe-user, http
certificates and scripts volumes, and the keystore volume. -/
def resolvedVolumes (D : Deps) (p : NewPodSpecParams) : List Volume :=
  D.PluginVolumesVolumes ++
    [D.DefaultLogsVolume,
     p.UsersSecretVolume.Volume,
     p.UnicastHostsVolume.Volume,
     (probeSecret D p).Volume,
     (httpCertificatesVolume D p).Volume,
     (scriptsVolume D p).Volume] ++
    (p.KeystoreResources.map (fun keystore => keystore.Volume)).toList

/-- The value of the checksum label for a keystore version. -/
def keystoreChecksum (version : String) : String :=
  hexString (SHA224.sum (stringBytes version))

/-! ## Sample inputs -/

/-- A sum of `int32` values, wrapped to the range of `int32`. -/
def int32 (x : Int) : Int := (x + 2147483648) % 4294967296 - 2147483648

/-- The decimal value of a list of digits. -/
def digitsValue (cs : List Char) : Nat :=
  cs.foldl (fun n c => 10 * n + (c.toNat - 48)) 0

/-- A version parser for the samples: three dot-separated runs of digits. -/
def sampleParse (v : String) : Except Err Version :=
  match v.toList.splitOn '.' with
  | [a, b, c] =>
    if (a ++ b ++ c).all Char.isDigit && !a.isEmpty && !b.isEmpty && !c.isEmpty then
      .ok ⟨digitsValue a, digitsValue b, digitsValue c⟩
    else .error "version: not a number"
  | _ => .error "version: expected major.minor.patch"

/-- Sample values for the declarations outside the sources; `NodeCount` is the total of
the replica counts, in `int32` arithmetic. -/
def sampleDeps : Deps where
  ElasticsearchContainerName := "elasticsearch"
  DefaultImageRepository := "docker.elastic.co/elasticsearch/elasticsearch"
  DefaultTerminationGracePeriodSeconds := 120
  DefaultContainerPorts := [⟨"http", 9200⟩, ⟨"transport", 9300⟩]
  NewReadinessProbe := ⟨["sh", "-c", "/mnt/elastic-internal/scripts/readiness-probe-script.sh"]⟩
  DefaultAffinity := fun esName => ⟨[esName]⟩
  ElasticInternalUsersSecretName := fun esName => esName ++ "-es-internal-users"
  HTTPCertsInternalSecretName := fun esName => esName ++ "-es-http-certs-internal"
  TransportCertsSecret := fun podName => podName ++ "-certs"
  ScriptsConfigMap := fun esName => esName ++ "-es-scripts"
  ConfigSecretVolume := fun podName =>
    NewSecretVolumeWithMountPath (podName ++ "-config") "elastic-internal-elasticsearch-config"
      "/mnt/elastic-internal/elasticsearch-config"
  ProbeUserVolumeName := "elastic-internal-probe-user"
  ProbeUserSecretMountPath := "/mnt/elastic-internal/probe-user"
  HTTPCertificatesSecretVolumeName := "elastic-internal-http-certificates"
  HTTPCertificatesSecretVolumeMountPath := "/usr/share/elasticsearch/config/http-certs"
  TransportCertificatesSecretVolumeName := "elastic-internal-transport-certificates"
  TransportCertificatesSecretVolumeMountPath := "/usr/share/elasticsearch/config/transport-certs"
  ScriptsVolumeName := "elastic-internal-scripts"
  ScriptsVolumeMountPath := "/mnt/elastic-internal/scripts"
  DefaultLogsVolume := ⟨"elasticsearch-logs", .EmptyDir⟩
  DefaultDataVolumeMount := ⟨"elasticsearch-data", "/usr/share/elasticsearch/data", false⟩
  DefaultLogsVolumeMount := ⟨"elasticsearch-logs", "/usr/share/elasticsearch/logs", false⟩
  DefaultVolumeClaimTemplates := [⟨"elasticsearch-data", 1073741824⟩]
  PluginVolumesVolumes := [⟨"elastic-internal-elasticsearch-plugins-local", .EmptyDir⟩]
  PluginVolumesEsContainerVolumeMounts :=
    [⟨"elastic-internal-elasticsearch-plugins-local", "/usr/share/elasticsearch/plugins", false⟩]
  InitContainerDefaults := fun main initContainers =>
    initContainers.map (fun c => if c.Image == "" then { c with Image := main.Image } else c)
  NewPodLabels := fun es _ _ =>
    [("common.k8s.elastic.co/type", "elasticsearch"),
     ("elasticsearch.k8s.elastic.co/cluster-name", es.Name),
     ("elasticsearch.k8s.elastic.co/version", es.Spec.Version)]
  ConfigChecksumLabelName := "elasticsearch.k8s.elastic.co/config-checksum"
  Parse := sampleParse
  Unpack := fun c => .ok ⟨c.Settings⟩
  NodeCount := fun spec => spec.Nodes.foldl (fun count node => int32 (count + node.NodeCount)) 0
  NewPodName := fun esName nodeSpec => esName ++ "-es-" ++ nodeSpec.Name
  SetTemplateHashLabel := fun labels template =>
    labelSet labels "common.k8s.elastic.co/template-hash"
      (hexString (SHA224.wordBytes (template.Spec.Volumes.length * 65536
        + template.Spec.Containers.length * 256 + template.ObjectMeta.Labels.length)))

/-- Sample generators: the configuration generator rejects the setting `invalid`, the
init-container generator rejects an image named `unknown`. -/
def sampleGenerators : Generators where
  newEnvironmentVarsFn := fun p => [⟨"PROBE_USERNAME", p.ProbeUser.Name⟩]
  newESConfigFn := fun clusterName config =>
    if config.any (fun e => e.1 == "invalid") then .error "config: unknown setting"
    else .ok ⟨("cluster.name", clusterName) :: config⟩
  newInitContainersFn := fun imageName _ transportCerts _ =>
    if imageName == "unknown" then .error "init containers: no such image"
    else .ok [{ (default : Container) with
      Name := "elastic-internal-init-filesystem", Image := imageName,
      VolumeMounts := [transportCerts.VolumeMount] }]

/-- A parameter template without keystore resources. -/
def sampleParams : NewPodSpecParams where
  Elasticsearch := default
  UsersSecretVolume :=
    NewSecretVolumeWithMountPath "es1-es-xpack-file-realm" "elastic-internal-xpack-file-realm"
      "/mnt/elastic-internal/xpack-file-realm"
  ProbeUser := ⟨"elastic-internal-probe"⟩
  UnicastHostsVolume :=
    NewConfigMapVolumeWithMode "es1-es-unicast-hosts" "elastic-internal-unicast-hosts"
      "/mnt/elastic-internal/unicast-hosts" 0o644
  KeystoreResources := none
  NodeSpec := default

/-- The keystore resources of a given version. -/
def sampleKeystore (version : String) : KeystoreResources where
  Volume := ⟨"elastic-internal-secure-settings", .Secret "es1-es-secure-settings" []⟩
  InitContainer := { (default : Container) with Name := "elastic-internal-init-keystore" }
  Version := version

/-- The parameter template with keystore resources of a given version. -/
def sampleKeystoreParams (version : String) : NewPodSpecParams :=
  { sampleParams with KeystoreResources := some (sampleKeystore version) }

/-- A node group of the given name, replica count and claim templates, with an empty
pod template and no configuration. -/
def sampleNode (name : String) (count : Int) (claims : List PersistentVolumeClaim) : NodeSpec :=
  { (default : NodeSpec) with Name := name, NodeCount := count, VolumeClaimTemplates := claims }

/-- A cluster named `es1` with the given node groups. -/
def sampleCluster (nodes : List NodeSpec) : Elasticsearch where
  Name := "es1"
  Namespace := "default"
  Spec := { Version := "7.1.0", Image := "", SetVMMaxMapCount := none, Nodes := nodes }

/-- Three node groups with replica counts 3, 0 and 2; the first declares a claim `data`. -/
def sampleES : Elasticsearch :=
  sampleCluster [sampleNode "master" 3 [⟨"data", 1073741824⟩], sampleNode "idle" 0 [],
    sampleNode "ingest" 2 []]

/-- A node group whose configuration the sample configuration generator rejects. -/
def sampleBadNode (name : String) (count : Int) : NodeSpec :=
  { sampleNode name count [] with Config := some [("invalid", "true")] }

/-- A cluster whose second node group cannot be built. -/
def sampleFailingES : Elasticsearch :=
  sampleCluster [sampleNode "master" 1 [], sampleBadNode "data" 2, sampleNode "ingest" 1 []]

/-- A cluster whose first node group cannot be built. -/
def sampleFailsAtFirst : Elasticsearch :=
  sampleCluster [sampleBadNode "master" 1, sampleNode "data" 1 []]

/-- A cluster with one node group of two replicas. -/
def sampleTwoReplicas : Elasticsearch :=
  sampleCluster [sampleNode "master" 2 []]

/-- The contexts of the replicas of a sample cluster, in node-group then ordinal order. -/
def sampleContexts (es : Elasticsearch) (paramsTmpl : NewPodSpecParams) : List PodSpecContext :=
  (replicas sampleDeps es).map
    (fun node => (podSpecContext sampleDeps (replicaParams es paramsTmpl node) sampleGenerators).1)

/-- A node group of one replica with the given pod template. -/
def sampleTemplateNode (name : String) (claims : List PersistentVolumeClaim)
    (template : PodTemplateSpec) : NodeSpec :=
  { sampleNode name 1 claims with PodTemplate := template }

/-- A pod template whose main container mounts the data volume at a path of its own. -/
def sampleCustomMountTemplate : PodTemplateSpec :=
  { (default : PodTemplateSpec) with Spec := { (default : PodSpec) with
      Containers := [{ (default : Container) with
        Name := "elasticsearch",
        VolumeMounts := [⟨"elasticsearch-data", "/data", false⟩] }] } }

/-- A pod template whose main container declares the default data mount twice. -/
def sampleDuplicateMountTemplate : PodTemplateSpec :=
  { (default : PodTemplateSpec) with Spec := { (default : PodSpec) with
      Containers := [{ (default : Container) with
        Name := "elasticsearch",
        VolumeMounts := [⟨"elasticsearch-data", "/usr/share/elasticsearch/data", false⟩,
          ⟨"elasticsearch-data", "/usr/share/elasticsearch/data", false⟩] }] } }

/-- A cluster whose node group declares the default data mount twice. -/
def sampleDuplicateMountES : Elasticsearch :=
  sampleCluster [sampleTemplateNode "master" [] sampleDuplicateMountTemplate]

/-- A cluster whose node group mounts the data volume at a path of its own. -/
def sampleCustomMountES : Elasticsearch :=
  sampleCluster [sampleTemplateNode "master" [] sampleCustomMountTemplate]

/-- A parameter template whose users-secret volume has the name of the unicast-hosts
volume. -/
def sampleClashingParams : NewPodSpecParams :=
  { sampleParams with UsersSecretVolume :=
      (NewSecretVolumeWithMountPath "es1-es-xpack-file-realm" "elastic-internal-unicast-hosts"
        "/mnt/elastic-internal/xpack-file-realm") }

/-- A pod template that mounts an existing claim as a volume. -/
def sampleClaimVolumeTemplate : PodTemplateSpec :=
  { (default : PodTemplateSpec) with Spec := { (default : PodSpec) with
      Volumes := [⟨"backup", .PersistentVolumeClaim "nightly-backup"⟩] } }

/-- A cluster whose node group mounts an existing claim as a volume. -/
def sampleClaimVolumeES : Elasticsearch :=
  sampleCluster [sampleTemplateNode "master" [] sampleClaimVolumeTemplate]

/-- A pod template that declares a volume `data` of its own. -/
def sampleOwnDataTemplate : PodTemplateSpec :=
  { (default : PodTemplateSpec) with Spec := { (default : PodSpec) with
      Volumes := [⟨"data", .EmptyDir⟩] } }

/-- A cluster whose node group declares a claim `data` and a volume `data` of its own. -/
def sampleOwnDataES : Elasticsearch :=
  sampleCluster [sampleTemplateNode "master" [⟨"data", 1073741824⟩] sampleOwnDataTemplate]

/-- A pod template that sets the checksum label itself. -/
def samplePinnedLabelTemplate : PodTemplateSpec :=
  { (default : PodTemplateSpec) with ObjectMeta := { (default : ObjectMeta) with
      Labels := [("elasticsearch.k8s.elastic.co/config-checksum", "pinned")] } }

/-- A cluster whose node group sets the checksum label itself. -/
def samplePinnedLabelES : Elasticsearch :=
  sampleCluster [sampleTemplateNode "master" [] samplePinnedLabelTemplate]

/-- A cluster with one node group of three replicas and one claim `data`. -/
def sampleDataClaimES : Elasticsearch :=
  sampleCluster [sampleNode "master" 3 [⟨"data", 1073741824⟩]]

/-! ## The loops of `NewExpectedPodSpecs` -/

/-- The error returned by `podSpecContext` is the first of the four errors of the replica. -/
theorem podSpecContext_snd (D : Deps) (p : NewPodSpecParams) (G : Generators) :
    (podSpecContext D p G).2 = replicaError D p G := by
  simp only [podSpecContext, replicaError]
  split
  · rfl
  · split
    · rfl
    · split
      · rfl
      · split <;> rfl

/-- The inner loop: all the replicas of a node group, or the error of the first one. -/
theorem replicasLoop_eq (D : Deps) (es : Elasticsearch) (paramsTmpl : NewPodSpecParams)
    (G : Generators) (node : NodeSpec) (n : Nat) (acc : List PodSpecContext) :
    replicasLoop D es paramsTmpl G node n acc =
      match replicaError D (replicaParams es paramsTmpl node) G with
      | some e => if n = 0 then (acc, none) else ([], some e)
      | none =>
        (acc ++ List.replicate n (podSpecContext D (replicaParams es paramsTmpl node) G).1, none) := by
  induction n generalizing acc with
  | zero => cases replicaError D (replicaParams es paramsTmpl node) G <;> simp [replicasLoop]
  | succ k ih =>
    have hs := podSpecContext_snd D (replicaParams es paramsTmpl node) G
    rw [replicasLoop]
    rcases hc : podSpecContext D (replicaParams es paramsTmpl node) G with ⟨c, _ | e⟩
    · rw [hc] at hs
      simp only [] at hs ⊢
      rw [ih, hc, ← hs]
      simp [List.replicate_succ]
    · rw [hc] at hs
      simp only [] at hs ⊢
      rw [← hs]
      simp

/-- The outer loop: the contexts of all replicas in order, or the first error alone. -/
theorem nodesLoop_eq (D : Deps) (es : Elasticsearch) (paramsTmpl : NewPodSpecParams)
    (G : Generators) (nodes : List NodeSpec) (acc : List PodSpecContext) :
    nodesLoop D es paramsTmpl G nodes acc =
      match (nodes.flatMap (fun node =>
          List.replicate node.NodeCount.toNat (withDefaultPVCs D node))).findSome?
          (fun node => replicaError D (replicaParams es paramsTmpl node) G) with
      | some e => ([], some e)
      | none =>
        (acc ++ (nodes.flatMap (fun node =>
          List.replicate node.NodeCount.toNat (withDefaultPVCs D node))).map
          (fun node => (podSpecContext D (replicaParams es paramsTmpl node) G).1), none) := by
  induction nodes generalizing acc with
  | nil => simp [nodesLoop]
  | cons node rest ih =>
    rw [nodesLoop]
    simp only [replicasLoop_eq, List.flatMap_cons, List.findSome?_append, List.map_append,
      List.findSome?_replicate, List.map_replicate]
    have hn : (withDefaultPVCs D node).NodeCount = node.NodeCount := rfl
    rw [hn]
    cases he : replicaError D (replicaParams es paramsTmpl (withDefaultPVCs D node)) G with
    | none =>
      simp only [ite_self, Option.none_or, ih, List.append_assoc]
    | some e =>
      by_cases h0 : node.NodeCount.toNat = 0
      · simp only [h0, if_true, Option.none_or, ih, List.replicate_zero, List.nil_append]
      · simp [h0, Option.or]

/-- The loops of `NewExpectedPodSpecs` in closed form. -/
theorem nodesLoop_nodes_eq (D : Deps) (es : Elasticsearch) (paramsTmpl : NewPodSpecParams)
    (G : Generators) :
    nodesLoop D es paramsTmpl G es.Spec.Nodes [] =
      match firstReplicaError D es paramsTmpl G with
      | some e => ([], some e)
      | none =>
        ((replicas D es).map
          (fun node => (podSpecContext D (replicaParams es paramsTmpl node) G).1), none) := by
  unfold firstReplicaError replicas
  rw [nodesLoop_eq]
  simp

/-- What `NewExpectedPodSpecs` returns is what its loops return, after an allocation that
did not panic. -/
theorem NewExpectedPodSpecs_some (D : Deps) (es : Elasticsearch) (paramsTmpl : NewPodSpecParams)
    (G : Generators) (r : List PodSpecContext × Option Err)
    (h : NewExpectedPodSpecs D es paramsTmpl G = some r) :
    0 ≤ D.NodeCount es.Spec ∧ nodesLoop D es paramsTmpl G es.Spec.Nodes [] = r := by
  unfold NewExpectedPodSpecs at h
  by_cases hc : D.NodeCount es.Spec < 0
  · rw [if_pos hc] at h
    exact absurd h (by simp)
  · rw [if_neg hc] at h
    exact ⟨by omega, Option.some.inj h⟩

/-- With a capacity that is not negative, `NewExpectedPodSpecs` returns what its loops
return. -/
theorem NewExpectedPodSpecs_of_nonneg (D : Deps) (es : Elasticsearch)
    (paramsTmpl : NewPodSpecParams) (G : Generators) (hcap : 0 ≤ D.NodeCount es.Spec) :
    NewExpectedPodSpecs D es paramsTmpl G = some (nodesLoop D es paramsTmpl G es.Spec.Nodes []) := by
  unfold NewExpectedPodSpecs
  rw [if_neg (by omega)]

/-- Without a panic and without a failing replica, `NewExpectedPodSpecs` returns the
contexts of the replicas. -/
theorem NewExpectedPodSpecs_of_ok (D : Deps) (es : Elasticsearch) (paramsTmpl : NewPodSpecParams)
    (G : Generators) (hcap : 0 ≤ D.NodeCount es.Spec)
    (h : firstReplicaError D es paramsTmpl G = none) :
    NewExpectedPodSpecs D es paramsTmpl G =
      some ((replicas D es).map
        (fun node => (podSpecContext D (replicaParams es paramsTmpl node) G).1), none) := by
  rw [NewExpectedPodSpecs_of_nonneg D es paramsTmpl G hcap, nodesLoop_nodes_eq, h]

/-- Success of the generation is the absence of a failing replica. -/
theorem NewExpectedPodSpecs_snd (D : Deps) (es : Elasticsearch) (paramsTmpl : NewPodSpecParams)
    (G : Generators) (podSpecs : List PodSpecContext) (err : Option Err)
    (h : NewExpectedPodSpecs D es paramsTmpl G = some (podSpecs, err)) :
    err = firstReplicaError D es paramsTmpl G := by
  have h2 := (NewExpectedPodSpecs_some D es paramsTmpl G _ h).2
  rw [nodesLoop_nodes_eq] at h2
  cases hf : firstReplicaError D es paramsTmpl G with
  | none => rw [hf] at h2; exact (congrArg Prod.snd h2).symm
  | some e => rw [hf] at h2; exact (congrArg Prod.snd h2).symm

/-- The contexts of a successful generation. -/
theorem NewExpectedPodSpecs_fst (D : Deps) (es : Elasticsearch) (paramsTmpl : NewPodSpecParams)
    (G : Generators) (podSpecs : List PodSpecContext)
    (h : NewExpectedPodSpecs D es paramsTmpl G = some (podSpecs, none)) :
    podSpecs =
      (replicas D es).map
        (fun node => (podSpecContext D (replicaParams es paramsTmpl node) G).1) := by
  have hf := (NewExpectedPodSpecs_snd D es paramsTmpl G podSpecs none h).symm
  have h2 := (NewExpectedPodSpecs_some D es paramsTmpl G _ h).2
  rw [nodesLoop_nodes_eq, hf] at h2
  exact (congrArg Prod.fst h2).symm

/-- The node group of a generated context is the node group of the parameters. -/
theorem podSpecContext_NodeSpec (D : Deps) (p : NewPodSpecParams) (G : Generators)
    (h : replicaError D p G = none) : (podSpecContext D p G).1.NodeSpec = p.NodeSpec := by
  simp only [replicaError] at h
  simp only [podSpecContext]
  split at h
  · simp at h
  · split at h
    · simp at h
    · split at h
      · simp at h
      · split at h
        · simp at h
        · simp [*]

/-! ## Number and order of the generated contexts -/

/-- The replicas of the cluster number the sum of the replica counts. -/
theorem length_replicas_nodes (D : Deps) (nodes : List NodeSpec)
    (hcount : ∀ node ∈ nodes, 0 ≤ node.NodeCount) :
    (((nodes.flatMap (fun node =>
      List.replicate node.NodeCount.toNat (withDefaultPVCs D node))).length : Nat) : Int) =
      (nodes.map NodeSpec.NodeCount).sum := by
  induction nodes with
  | nil => simp
  | cons node rest ih =>
    have h0 : 0 ≤ node.NodeCount := hcount node (List.mem_cons_self _ _)
    have ih2 := ih (fun n hn => hcount n (List.mem_cons_of_mem _ hn))
    simp only [List.flatMap_cons, List.length_append, List.length_replicate, List.map_cons,
      List.sum_cons, Nat.cast_add, ih2, Int.toNat_of_nonneg h0]

/-- A replica belongs to a declared node group with a positive replica count. -/
theorem mem_replicas (D : Deps) (es : Elasticsearch) (r : NodeSpec) (h : r ∈ replicas D es) :
    ∃ node ∈ es.Spec.Nodes, 0 < node.NodeCount ∧ r = withDefaultPVCs D node := by
  simp only [replicas, List.mem_flatMap, List.mem_replicate] at h
  obtain ⟨node, hn, h0, rfl⟩ := h
  exact ⟨node, hn, by omega, rfl⟩

/-- On success every replica is built without error. -/
theorem replicaError_none_of_ok (D : Deps) (es : Elasticsearch) (paramsTmpl : NewPodSpecParams)
    (G : Generators) (podSpecs : List PodSpecContext)
    (hok : NewExpectedPodSpecs D es paramsTmpl G = some (podSpecs, none)) :
    ∀ node ∈ replicas D es, replicaError D (replicaParams es paramsTmpl node) G = none := by
  have hf := (NewExpectedPodSpecs_snd D es paramsTmpl G podSpecs none hok).symm
  simpa [firstReplicaError] using hf

/-- C1: when every node group has a replica count of at least zero and generation
succeeds, the number of returned contexts is the sum of the replica counts of the node
groups, and no returned context belongs to a node group whose replica count is zero. -/
theorem newExpectedPodSpecs_count (D : Deps) (es : Elasticsearch) (paramsTmpl : NewPodSpecParams)
    (G : Generators) (hcount : ∀ node ∈ es.Spec.Nodes, 0 ≤ node.NodeCount)
    (podSpecs : List PodSpecContext)
    (hok : NewExpectedPodSpecs D es paramsTmpl G = some (podSpecs, none)) :
    ((podSpecs.length : Nat) : Int) =
        (es.Spec.Nodes.map NodeSpec.NodeCount).sum ∧
      ∀ ctx ∈ podSpecs, ctx.NodeSpec.NodeCount ≠ 0 := by
  have hall := replicaError_none_of_ok D es paramsTmpl G podSpecs hok
  rw [NewExpectedPodSpecs_fst D es paramsTmpl G podSpecs hok]
  refine ⟨?_, ?_⟩
  · rw [List.length_map]
    exact length_replicas_nodes D es.Spec.Nodes hcount
  · intro ctx hctx
    obtain ⟨r, hr, rfl⟩ := List.mem_map.1 hctx
    rw [podSpecContext_NodeSpec D _ G (hall r hr)]
    obtain ⟨node, _, hpos, rfl⟩ := mem_replicas D es r hr
    show node.NodeCount ≠ 0
    omega

/-- C1, on a cluster with replica counts 3, 0 and 2, which returns five contexts. -/
theorem newExpectedPodSpecs_count_witness :
    NewExpectedPodSpecs sampleDeps sampleES sampleParams sampleGenerators =
        some (sampleContexts sampleES sampleParams, none) ∧
      (((sampleContexts sampleES sampleParams).length : Nat) : Int) =
        (sampleES.Spec.Nodes.map NodeSpec.NodeCount).sum ∧
      ∀ ctx ∈ sampleContexts sampleES sampleParams, ctx.NodeSpec.NodeCount ≠ 0 :=
  ⟨by decide,
   newExpectedPodSpecs_count sampleDeps sampleES sampleParams sampleGenerators (by decide)
    (sampleContexts sampleES sampleParams) (by decide)⟩

/-- C2: on success the returned sequence is the concatenation, over the node groups in
declaration order, of one block per node group made of as many contexts as the group has
replicas, and the node group of every context of a block is that group with its
volume-claim templates augmented by the defaults. -/
theorem newExpectedPodSpecs_order (D : Deps) (es : Elasticsearch) (paramsTmpl : NewPodSpecParams)
    (G : Generators) (podSpecs : List PodSpecContext)
    (hok : NewExpectedPodSpecs D es paramsTmpl G = some (podSpecs, none)) :
    podSpecs =
        es.Spec.Nodes.flatMap (fun node => List.replicate node.NodeCount.toNat
          (podSpecContext D (replicaParams es paramsTmpl (withDefaultPVCs D node)) G).1) ∧
      podSpecs.map PodSpecContext.NodeSpec =
        es.Spec.Nodes.flatMap (fun node => List.replicate node.NodeCount.toNat
          { node with VolumeClaimTemplates :=
              (AppendDefaultPVCs node.VolumeClaimTemplates node.PodTemplate.Spec
                D.DefaultVolumeClaimTemplates) }) := by
  have hall := replicaError_none_of_ok D es paramsTmpl G podSpecs hok
  rw [NewExpectedPodSpecs_fst D es paramsTmpl G podSpecs hok]
  refine ⟨?_, ?_⟩
  · simp [replicas, List.map_flatMap]
  · rw [List.map_map]
    have : ∀ r ∈ replicas D es,
        (PodSpecContext.NodeSpec ∘
          fun node => (podSpecContext D (replicaParams es paramsTmpl node) G).1) r = id r := by
      intro r hr
      exact podSpecContext_NodeSpec D _ G (hall r hr)
    rw [List.map_congr_left this, List.map_id]
    rfl

/-- C2, on a cluster with replica counts 3, 0 and 2. -/
theorem newExpectedPodSpecs_order_witness :
    NewExpectedPodSpecs sampleDeps sampleES sampleParams sampleGenerators =
        some (sampleContexts sampleES sampleParams, none) ∧
      sampleContexts sampleES sampleParams =
        sampleES.Spec.Nodes.flatMap (fun node => List.replicate node.NodeCount.toNat
          (podSpecContext sampleDeps
            (replicaParams sampleES sampleParams (withDefaultPVCs sampleDeps node))
            sampleGenerators).1) ∧
      (sampleContexts sampleES sampleParams).map PodSpecContext.NodeSpec =
        sampleES.Spec.Nodes.flatMap (fun node => List.replicate node.NodeCount.toNat
          { node with VolumeClaimTemplates :=
              (AppendDefaultPVCs node.VolumeClaimTemplates node.PodTemplate.Spec
                sampleDeps.DefaultVolumeClaimTemplates) }) :=
  ⟨by decide,
   newExpectedPodSpecs_order sampleDeps sampleES sampleParams sampleGenerators
    (sampleContexts sampleES sampleParams) (by decide)⟩

/-! ## Failure of the generation -/

/-- C10 fails as stated: the configuration generator rejects the first node group of one
cluster and the second node group of another, and the two errors returned are equal. -/
theorem newExpectedPodSpecs_error_context_counterexample :
    (podSpecContext sampleDeps (replicaParams sampleFailsAtFirst sampleParams
        (withDefaultPVCs sampleDeps (sampleBadNode "master" 1))) sampleGenerators).2
      = some "config: unknown setting" ∧
    (podSpecContext sampleDeps (replicaParams sampleFailingES sampleParams
        (withDefaultPVCs sampleDeps (sampleNode "master" 1 []))) sampleGenerators).2 = none ∧
    (podSpecContext sampleDeps (replicaParams sampleFailingES sampleParams
        (withDefaultPVCs sampleDeps (sampleBadNode "data" 2))) sampleGenerators).2
      = some "config: unknown setting" ∧
    NewExpectedPodSpecs sampleDeps sampleFailsAtFirst sampleParams sampleGenerators
      = some ([], some "config: unknown setting") ∧
    NewExpectedPodSpecs sampleDeps sampleFailingES sampleParams sampleGenerators
      = some ([], some "config: unknown setting") := by
  decide

/-- C10, amended: an error returned by `NewExpectedPodSpecs` is, unchanged, the error that
the init-container generator, the configuration generator, the unpacking of the
configuration or the parsing of the version returned for a node group with at least one
replica; nothing about the node group or the ordinal is added to it. -/
theorem newExpectedPodSpecs_error_unchanged (D : Deps) (es : Elasticsearch)
    (paramsTmpl : NewPodSpecParams) (G : Generators) (podSpecs : List PodSpecContext) (e : Err)
    (herr : NewExpectedPodSpecs D es paramsTmpl G = some (podSpecs, some e)) :
    ∃ node ∈ es.Spec.Nodes, 0 < node.NodeCount ∧
      (G.newInitContainersFn
          (defaultsBuilder D (replicaParams es paramsTmpl (withDefaultPVCs D node)) G).Container.Image
          es.Spec.SetVMMaxMapCount (transportCertificatesVolume D) es.Name = .error e ∨
        G.newESConfigFn es.Name (node.Config.getD []) = .error e ∨
        (∃ esConfig, G.newESConfigFn es.Name (node.Config.getD []) = .ok esConfig ∧
          D.Unpack esConfig = .error e) ∨
        D.Parse es.Spec.Version = .error e) := by
  have herr2 := (NewExpectedPodSpecs_snd D es paramsTmpl G podSpecs (some e) herr).symm
  obtain ⟨r, hr, hre⟩ := List.exists_of_findSome?_eq_some herr2
  obtain ⟨node, hnode, hpos, rfl⟩ := mem_replicas D es r hr
  refine ⟨node, hnode, hpos, ?_⟩
  simp only [replicaError] at hre
  split at hre
  · left
    simp only [Option.some.injEq] at hre
    subst hre
    assumption
  · right
    split at hre
    · left
      simp only [Option.some.injEq] at hre
      subst hre
      assumption
    · right
      split at hre
      · left
        simp only [Option.some.injEq] at hre
        subst hre
        exact ⟨_, by assumption, by assumption⟩
      · right
        split at hre
        · simp only [Option.some.injEq] at hre
          subst hre
          assumption
        · simp at hre

/-- C10, amended, on a cluster whose second node group is rejected. -/
theorem newExpectedPodSpecs_error_unchanged_witness :
    ∃ node ∈ sampleFailingES.Spec.Nodes, 0 < node.NodeCount ∧
      (sampleGenerators.newInitContainersFn
          (defaultsBuilder sampleDeps
            (replicaParams sampleFailingES sampleParams (withDefaultPVCs sampleDeps node))
            sampleGenerators).Container.Image
          sampleFailingES.Spec.SetVMMaxMapCount (transportCertificatesVolume sampleDeps)
          sampleFailingES.Name = .error "config: unknown setting" ∨
        sampleGenerators.newESConfigFn sampleFailingES.Name (node.Config.getD [])
          = .error "config: unknown setting" ∨
        (∃ esConfig, sampleGenerators.newESConfigFn sampleFailingES.Name (node.Config.getD [])
            = .ok esConfig ∧
          sampleDeps.Unpack esConfig = .error "config: unknown setting") ∨
        sampleDeps.Parse sampleFailingES.Spec.Version = .error "config: unknown setting") :=
  newExpectedPodSpecs_error_unchanged sampleDeps sampleFailingES sampleParams sampleGenerators
    [] "config: unknown setting" (by decide)

/-! ## Materialization of a pod -/

/-- The fields that `NewPod` sets on the pod. -/
theorem newPod_fields (D : Deps) (es : Elasticsearch) (podSpecCtx : PodSpecContext) :
    (NewPod D es podSpecCtx).ObjectMeta.Namespace = es.Namespace ∧
    (NewPod D es podSpecCtx).ObjectMeta.Name = D.NewPodName es.Name podSpecCtx.NodeSpec ∧
    (NewPod D es podSpecCtx).Spec.Hostname =
      (if podSpecCtx.PodTemplate.Spec.Hostname = "" then D.NewPodName es.Name podSpecCtx.NodeSpec
       else podSpecCtx.PodTemplate.Spec.Hostname) ∧
    (NewPod D es podSpecCtx).Spec.Subdomain =
      (if podSpecCtx.PodTemplate.Spec.Subdomain = "" then es.Name
       else podSpecCtx.PodTemplate.Spec.Subdomain) := by
  unfold NewPod
  by_cases hh : podSpecCtx.PodTemplate.Spec.Hostname = "" <;>
    by_cases hs : podSpecCtx.PodTemplate.Spec.Subdomain = "" <;>
    simp [hh, hs]

/-- C8: `NewPod` is a total function, and the pod it returns has the namespace of the
cluster, the name derived from the cluster name and the node group of the context, the
hostname of the template or else the pod name, and the subdomain of the template or else
the cluster name. -/
theorem newPod_identity (D : Deps) (es : Elasticsearch) (podSpecCtx : PodSpecContext) :
    (NewPod D es podSpecCtx).ObjectMeta.Namespace = es.Namespace ∧
    (NewPod D es podSpecCtx).ObjectMeta.Name = D.NewPodName es.Name podSpecCtx.NodeSpec ∧
    (NewPod D es podSpecCtx).Spec.Hostname =
      (if podSpecCtx.PodTemplate.Spec.Hostname = "" then (NewPod D es podSpecCtx).ObjectMeta.Name
       else podSpecCtx.PodTemplate.Spec.Hostname) ∧
    (NewPod D es podSpecCtx).Spec.Subdomain =
      (if podSpecCtx.PodTemplate.Spec.Subdomain = "" then es.Name
       else podSpecCtx.PodTemplate.Spec.Subdomain) := by
  obtain ⟨h1, h2, h3, h4⟩ := newPod_fields D es podSpecCtx
  exact ⟨h1, h2, by rw [h2]; exact h3, h4⟩

/-- The labels of the pod are the template hash labelling of the template. -/
theorem newPod_labels (D : Deps) (es : Elasticsearch) (podSpecCtx : PodSpecContext) :
    (NewPod D es podSpecCtx).ObjectMeta.Labels =
      D.SetTemplateHashLabel podSpecCtx.PodTemplate.ObjectMeta.Labels podSpecCtx.PodTemplate := by
  unfold NewPod
  by_cases hh : podSpecCtx.PodTemplate.Spec.Hostname = "" <;>
    by_cases hs : podSpecCtx.PodTemplate.Spec.Subdomain = "" <;>
    simp [hh, hs]

/-! ## Merging under the user's precedence -/

theorem appendUnlessPresent_extends {α : Type} (key : α → String) (acc new : List α) :
    ∃ t, appendUnlessPresent key acc new = acc ++ t := by
  induction new generalizing acc with
  | nil => exact ⟨[], by simp [appendUnlessPresent]⟩
  | cons x xs ih =>
    rw [appendUnlessPresent]
    split
    · exact ih acc
    · obtain ⟨t, ht⟩ := ih (acc ++ [x])
      exact ⟨x :: t, by simp [ht]⟩

theorem mem_appendUnlessPresent_of_mem {α : Type} (key : α → String) (acc new : List α) (x : α)
    (h : x ∈ acc) :
    x ∈ appendUnlessPresent key acc new := by
  obtain ⟨t, ht⟩ := appendUnlessPresent_extends key acc new
  rw [ht]
  exact List.mem_append_left _ h

theorem mem_appendUnlessPresent {α : Type} (key : α → String) (acc new : List α) (x : α)
    (h : x ∈ appendUnlessPresent key acc new) : x ∈ acc ∨ x ∈ new := by
  induction new generalizing acc with
  | nil => exact Or.inl (by simpa [appendUnlessPresent] using h)
  | cons y ys ih =>
    rw [appendUnlessPresent] at h
    split at h
    · rcases ih acc h with h1 | h1
      · exact Or.inl h1
      · exact Or.inr (List.mem_cons_of_mem _ h1)
    · rcases ih (acc ++ [y]) h with h1 | h1
      · rcases List.mem_append.1 h1 with h2 | h2
        · exact Or.inl h2
        · exact Or.inr (by simp at h2; simp [h2])
      · exact Or.inr (List.mem_cons_of_mem _ h1)

/-- The first entry of a key after the merge is the first one of the merged list, or else
the first one of the appended list. -/
theorem find?_appendUnlessPresent {α : Type} (key : α → String) (acc new : List α)
    (k : String) :
    (appendUnlessPresent key acc new).find? (fun y => key y == k) =
      (acc.find? (fun y => key y == k)).or (new.find? (fun y => key y == k)) := by
  induction new generalizing acc with
  | nil => simp [appendUnlessPresent]
  | cons x xs ih =>
    rw [appendUnlessPresent]
    split
    · rename_i hany
      rw [ih]
      by_cases hk : key x = k
      · obtain ⟨y, hy, hyk⟩ := List.any_eq_true.1 hany
        have hyk2 : key y = k := by rw [← hk]; simpa using hyk
        have : (acc.find? (fun y => key y == k)).isSome := by
          rw [List.find?_isSome]
          exact ⟨y, hy, by simp [hyk2]⟩
        obtain ⟨z, hz⟩ := Option.isSome_iff_exists.1 this
        simp [hz]
      · have : (key x == k) = false := by simpa using hk
        simp [List.find?_cons, this]
    · rename_i hany
      rw [ih, List.find?_append]
      by_cases hk : key x = k
      · have hnone : acc.find? (fun y => key y == k) = none := by
          rw [List.find?_eq_none]
          intro y hy hyk
          apply hany
          rw [List.any_eq_true]
          exact ⟨y, hy, by rw [hk]; exact hyk⟩
        simp [hnone, List.find?_cons, hk]
      · have : (key x == k) = false := by simpa using hk
        simp [List.find?_cons, this]

/-- The number of entries of a key after the merge: those of the merged list when it has
some, else one when the appended list has some, else none. -/
theorem countP_appendUnlessPresent {α : Type} (key : α → String) (acc new : List α)
    (k : String) :
    (appendUnlessPresent key acc new).countP (fun y => key y == k) =
      if acc.any (fun y => key y == k) then acc.countP (fun y => key y == k)
      else if new.any (fun y => key y == k) then 1 else 0 := by
  induction new generalizing acc with
  | nil =>
    simp only [appendUnlessPresent, List.any_nil]
    split
    · rfl
    · rename_i h
      simp only [Bool.false_eq_true, if_false]
      rw [List.countP_eq_zero]
      intro y hy hyk
      exact h (List.any_eq_true.2 ⟨y, hy, hyk⟩)
  | cons x xs ih =>
    rw [appendUnlessPresent]
    by_cases hany : acc.any (fun y => key y == key x) = true
    · rw [if_pos hany, ih]
      by_cases hacc : acc.any (fun y => key y == k) = true
      · simp [hacc]
      · simp only [hacc, if_false, List.any_cons, Bool.false_eq_true]
        have hxk : (key x == k) = false := by
          by_contra hc
          have hc2 : key x = k := by simpa using hc
          rw [hc2] at hany
          exact hacc hany
        simp [hxk]
    · rw [if_neg hany, ih]
      by_cases hxk : key x = k
      · have hacc : acc.any (fun y => key y == k) = false := by
          rw [← hxk]; simpa using hany
        have hc0 : acc.countP (fun y => key y == k) = 0 := by
          rw [List.countP_eq_zero]
          intro y hy hyk
          have : acc.any (fun y => key y == k) = true := List.any_eq_true.2 ⟨y, hy, hyk⟩
          rw [hacc] at this
          exact Bool.false_ne_true this
        simp [hacc, hxk, List.countP_append, hc0, List.countP_cons]
      · have hxk2 : (key x == k) = false := by simpa using hxk
        simp [List.any_append, List.countP_append, List.countP_cons, hxk2, List.any_cons]

/-! ## What the builder leaves of the user's template -/

/-- The volumes of the assembled template: the user's volumes, merged with the volumes of
`podSpecContext`, merged with the keystore volume. -/
theorem volumesBuilder_Volumes (D : Deps) (p : NewPodSpecParams) (G : Generators)
    (initContainers : List Container) :
    (volumesBuilder D p G initContainers).PodTemplate.Spec.Volumes =
      appendUnlessPresent Volume.Name
        (appendUnlessPresent Volume.Name p.NodeSpec.PodTemplate.Spec.Volumes (podVolumes D p))
        ((p.KeystoreResources.map (fun keystore => keystore.Volume)).toList) := by
  unfold volumesBuilder defaultsBuilder NewPodTemplateBuilder
  cases p.KeystoreResources <;>
    by_cases h : p.NodeSpec.PodTemplate.Spec.Containers.any
      (fun c => c.Name == D.ElasticsearchContainerName) = true <;>
    simp [h, PodTemplateBuilder.WithDockerImage, PodTemplateBuilder.WithResources,
      PodTemplateBuilder.WithTerminationGracePeriod, PodTemplateBuilder.WithPorts,
      PodTemplateBuilder.WithReadinessProbe, PodTemplateBuilder.WithAffinity,
      PodTemplateBuilder.WithEnv, PodTemplateBuilder.WithVolumes,
      PodTemplateBuilder.WithVolumeMounts, PodTemplateBuilder.WithInitContainers,
      PodTemplateBuilder.WithInitContainerDefaults, PodTemplateBuilder.onSpec,
      PodTemplateBuilder.onContainer, appendUnlessPresent]

/-- The labels of the assembled template are those of the user's template. -/
theorem volumesBuilder_Labels (D : Deps) (p : NewPodSpecParams) (G : Generators)
    (initContainers : List Container) :
    (volumesBuilder D p G initContainers).PodTemplate.ObjectMeta.Labels =
      p.NodeSpec.PodTemplate.ObjectMeta.Labels := by
  unfold volumesBuilder defaultsBuilder NewPodTemplateBuilder
  cases p.KeystoreResources <;>
    by_cases h : p.NodeSpec.PodTemplate.Spec.Containers.any
      (fun c => c.Name == D.ElasticsearchContainerName) = true <;>
    simp [h, PodTemplateBuilder.WithDockerImage, PodTemplateBuilder.WithResources,
      PodTemplateBuilder.WithTerminationGracePeriod, PodTemplateBuilder.WithPorts,
      PodTemplateBuilder.WithReadinessProbe, PodTemplateBuilder.WithAffinity,
      PodTemplateBuilder.WithEnv, PodTemplateBuilder.WithVolumes,
      PodTemplateBuilder.WithVolumeMounts, PodTemplateBuilder.WithInitContainers,
      PodTemplateBuilder.WithInitContainerDefaults, PodTemplateBuilder.onSpec,
      PodTemplateBuilder.onContainer]

/-! ## The volume mounts of the main container -/

theorem find?_modifyFirst {α : Type} (p : α → Bool) (f : α → α)
    (hf : ∀ x, p x = true → p (f x) = true) (l : List α) :
    (modifyFirst p f l).find? p = (l.find? p).map f := by
  induction l with
  | nil => rfl
  | cons x xs ih =>
    rw [modifyFirst]
    by_cases hx : p x = true
    · simp [hx, hf x hx]
    · simp [hx, ih]

/-- A write through the `Container` pointer is seen on the main container. -/
theorem mainContainer?_onContainer (b : PodTemplateBuilder) (f : Container → Container)
    (hname : ∀ c, (f c).Name = c.Name) :
    mainContainer? (b.onContainer f).PodTemplate b.containerName =
      (mainContainer? b.PodTemplate b.containerName).map f := by
  unfold mainContainer? PodTemplateBuilder.onContainer
  apply find?_modifyFirst
  intro c hc
  rw [hname]
  exact hc

/-- A write to the pod spec that keeps the containers keeps the main container. -/
theorem mainContainer?_onSpec (b : PodTemplateBuilder) (g : PodSpec → PodSpec)
    (hc : ∀ s, (g s).Containers = s.Containers) (n : String) :
    mainContainer? (b.onSpec g).PodTemplate n = mainContainer? b.PodTemplate n := by
  unfold mainContainer? PodTemplateBuilder.onSpec
  simp [hc]

/-- The main container of a new builder exists and has the mounts of the user's one. -/
theorem mainContainer?_NewPodTemplateBuilder (base : PodTemplateSpec) (n : String) :
    ∃ c, mainContainer? (NewPodTemplateBuilder base n).PodTemplate n = some c ∧
      c.VolumeMounts = (mainContainer base n).VolumeMounts := by
  unfold NewPodTemplateBuilder mainContainer
  by_cases h : base.Spec.Containers.any (fun c => c.Name == n) = true
  · rw [if_pos h]
    obtain ⟨c, hc, hcn⟩ := List.any_eq_true.1 h
    have : (mainContainer? base n).isSome := by
      unfold mainContainer?
      rw [List.find?_isSome]
      exact ⟨c, hc, hcn⟩
    obtain ⟨c', hc'⟩ := Option.isSome_iff_exists.1 this
    exact ⟨c', hc', by rw [hc']; rfl⟩
  · rw [if_neg h]
    have hnone : mainContainer? base n = none := by
      unfold mainContainer?
      rw [List.find?_eq_none]
      intro c hc hcn
      exact h (List.any_eq_true.2 ⟨c, hc, hcn⟩)
    refine ⟨{ (default : Container) with Name := n }, ?_, ?_⟩
    · unfold mainContainer? at hnone ⊢
      simp [List.find?_append, hnone]
    · rw [hnone]; rfl

theorem mounts?_onContainer (b : PodTemplateBuilder) (f : Container → Container)
    (g : List VolumeMount → List VolumeMount) (hname : ∀ c, (f c).Name = c.Name)
    (hm : ∀ c, (f c).VolumeMounts = g c.VolumeMounts) :
    (b.onContainer f).mounts? = b.mounts?.map g := by
  unfold PodTemplateBuilder.mounts?
  have hcn : (b.onContainer f).containerName = b.containerName := rfl
  rw [hcn, mainContainer?_onContainer b f hname]
  cases mainContainer? b.PodTemplate b.containerName <;> simp [hm]

theorem mounts?_onSpec (b : PodTemplateBuilder) (g : PodSpec → PodSpec)
    (hc : ∀ s, (g s).Containers = s.Containers) : (b.onSpec g).mounts? = b.mounts? := by
  unfold PodTemplateBuilder.mounts?
  have hcn : (b.onSpec g).containerName = b.containerName := rfl
  rw [hcn, mainContainer?_onSpec b g hc]

theorem mounts?_WithDockerImage (b : PodTemplateBuilder) (customImage defaultImage : String) :
    (b.WithDockerImage customImage defaultImage).mounts? = b.mounts? := by
  unfold PodTemplateBuilder.WithDockerImage
  rw [mounts?_onContainer b _ id]
  · simp
  · intro c; split
    · rfl
    · split <;> rfl
  · intro c; split
    · rfl
    · split <;> rfl

theorem mounts?_WithResources (b : PodTemplateBuilder) (r : ResourceRequirements) :
    (b.WithResources r).mounts? = b.mounts? := by
  unfold PodTemplateBuilder.WithResources
  rw [mounts?_onContainer b _ id]
  · simp
  · intro c; rfl
  · intro c; rfl

theorem mounts?_WithTerminationGracePeriod (b : PodTemplateBuilder) (period : Int) :
    (b.WithTerminationGracePeriod period).mounts? = b.mounts? :=
  mounts?_onSpec b _ (fun _ => rfl)

theorem mounts?_WithPorts (b : PodTemplateBuilder) (ports : List ContainerPort) :
    (b.WithPorts ports).mounts? = b.mounts? := by
  unfold PodTemplateBuilder.WithPorts
  rw [mounts?_onContainer b _ id]
  · simp
  · intro c; split <;> rfl
  · intro c; split <;> rfl

theorem mounts?_WithReadinessProbe (b : PodTemplateBuilder) (probe : Probe) :
    (b.WithReadinessProbe probe).mounts? = b.mounts? := by
  unfold PodTemplateBuilder.WithReadinessProbe
  rw [mounts?_onContainer b _ id]
  · simp
  · intro c; rfl
  · intro c; rfl

theorem mounts?_WithAffinity (b : PodTemplateBuilder) (affinity : Affinity) :
    (b.WithAffinity affinity).mounts? = b.mounts? :=
  mounts?_onSpec b _ (fun _ => rfl)

theorem mounts?_WithEnv (b : PodTemplateBuilder) (vars : List EnvVar) :
    (b.WithEnv vars).mounts? = b.mounts? := by
  unfold PodTemplateBuilder.WithEnv
  rw [mounts?_onContainer b _ id]
  · simp
  · intro c; rfl
  · intro c; rfl

theorem mounts?_WithVolumes (b : PodTemplateBuilder) (volumes : List Volume) :
    (b.WithVolumes volumes).mounts? = b.mounts? :=
  mounts?_onSpec b _ (fun _ => rfl)

theorem mounts?_WithVolumeMounts (b : PodTemplateBuilder) (volumeMounts : List VolumeMount) :
    (b.WithVolumeMounts volumeMounts).mounts? =
      b.mounts?.map (fun ms => appendUnlessPresent VolumeMount.Name ms volumeMounts) :=
  mounts?_onContainer b _ _ (fun _ => rfl) (fun _ => rfl)

theorem mounts?_WithInitContainers (b : PodTemplateBuilder) (initContainers : List Container) :
    (b.WithInitContainers initContainers).mounts? = b.mounts? :=
  mounts?_onSpec b _ (fun _ => rfl)

theorem mounts?_WithInitContainerDefaults (b : PodTemplateBuilder) (D : Deps) :
    (b.WithInitContainerDefaults D).mounts? = b.mounts? :=
  mounts?_onSpec b _ (fun _ => rfl)

theorem mounts?_WithLabels (b : PodTemplateBuilder) (labels : Labels) :
    (b.WithLabels labels).mounts? = b.mounts? := rfl

theorem mounts?_NewPodTemplateBuilder (base : PodTemplateSpec) (n : String) :
    (NewPodTemplateBuilder base n).mounts? = some (mainContainer base n).VolumeMounts := by
  obtain ⟨c, hc, hm⟩ := mainContainer?_NewPodTemplateBuilder base n
  have hn : (NewPodTemplateBuilder base n).containerName = n := by
    unfold NewPodTemplateBuilder; split <;> rfl
  unfold PodTemplateBuilder.mounts?
  rw [hn, hc]
  simp [hm]

/-- The mounts of the main container once the template is assembled: the mounts of the
user's main container, merged with the mounts of `podSpecContext`. -/
theorem mounts?_volumesBuilder (D : Deps) (p : NewPodSpecParams) (G : Generators)
    (initContainers : List Container) (labels : Labels) :
    ((volumesBuilder D p G initContainers).WithLabels labels).mounts? =
      some (appendUnlessPresent VolumeMount.Name
        (mainContainer p.NodeSpec.PodTemplate D.ElasticsearchContainerName).VolumeMounts
        (podVolumeMounts D p)) := by
  unfold volumesBuilder defaultsBuilder
  cases p.KeystoreResources <;>
    simp [mounts?_WithLabels, mounts?_WithInitContainerDefaults, mounts?_WithInitContainers,
      mounts?_WithVolumes, mounts?_WithVolumeMounts, mounts?_WithEnv, mounts?_WithAffinity,
      mounts?_WithReadinessProbe, mounts?_WithPorts, mounts?_WithTerminationGracePeriod,
      mounts?_WithResources, mounts?_WithDockerImage, mounts?_NewPodTemplateBuilder]

/-- The name of the builder's container is the one handed to `NewPodTemplateBuilder`. -/
theorem containerName_volumesBuilder (D : Deps) (p : NewPodSpecParams) (G : Generators)
    (initContainers : List Container) (labels : Labels) :
    ((volumesBuilder D p G initContainers).WithLabels labels).containerName =
      D.ElasticsearchContainerName := by
  unfold volumesBuilder defaultsBuilder NewPodTemplateBuilder
  cases p.KeystoreResources <;>
    by_cases h : p.NodeSpec.PodTemplate.Spec.Containers.any
      (fun c => c.Name == D.ElasticsearchContainerName) = true <;>
    simp [h, PodTemplateBuilder.WithDockerImage, PodTemplateBuilder.WithResources,
      PodTemplateBuilder.WithTerminationGracePeriod, PodTemplateBuilder.WithPorts,
      PodTemplateBuilder.WithReadinessProbe, PodTemplateBuilder.WithAffinity,
      PodTemplateBuilder.WithEnv, PodTemplateBuilder.WithVolumes,
      PodTemplateBuilder.WithVolumeMounts, PodTemplateBuilder.WithInitContainers,
      PodTemplateBuilder.WithInitContainerDefaults, PodTemplateBuilder.WithLabels,
      PodTemplateBuilder.onSpec, PodTemplateBuilder.onContainer]

/-- The mounts of the main container of the assembled template. -/
theorem mainContainer_volumesBuilder (D : Deps) (p : NewPodSpecParams) (G : Generators)
    (initContainers : List Container) (labels : Labels) :
    (mainContainer ((volumesBuilder D p G initContainers).WithLabels labels).PodTemplate
        D.ElasticsearchContainerName).VolumeMounts =
      appendUnlessPresent VolumeMount.Name
        (mainContainer p.NodeSpec.PodTemplate D.ElasticsearchContainerName).VolumeMounts
        (podVolumeMounts D p) := by
  have h := mounts?_volumesBuilder D p G initContainers labels
  unfold PodTemplateBuilder.mounts? at h
  rw [containerName_volumesBuilder] at h
  unfold mainContainer
  cases hm : mainContainer? ((volumesBuilder D p G initContainers).WithLabels labels).PodTemplate
      D.ElasticsearchContainerName with
  | none => rw [hm] at h; simp at h
  | some c => rw [hm] at h; simpa using h

/-! ## The template of a generated context -/

/-- The template of a context built without error is the assembled template with the
labels of the replica. -/
theorem podSpecContext_PodTemplate (D : Deps) (p : NewPodSpecParams) (G : Generators)
    (h : replicaError D p G = none) :
    ∃ initContainers esVersion unpackedCfg,
      (podSpecContext D p G).1.PodTemplate =
        ((volumesBuilder D p G initContainers).WithLabels
          (podLabels D p esVersion unpackedCfg)).PodTemplate := by
  simp only [replicaError] at h
  simp only [podSpecContext]
  split at h
  · simp at h
  · split at h
    · simp at h
    · split at h
      · simp at h
      · split at h
        · simp at h
        · rename_i inits hinit _ cfg hcfg _ u hu _ v hv
          exact ⟨inits, v, u, by simp [hinit, hcfg, hu, hv]⟩

/-- A context of a successful generation is the context of a replica built without error. -/
theorem mem_NewExpectedPodSpecs (D : Deps) (es : Elasticsearch) (paramsTmpl : NewPodSpecParams)
    (G : Generators) (podSpecs : List PodSpecContext)
    (hok : NewExpectedPodSpecs D es paramsTmpl G = some (podSpecs, none))
    (ctx : PodSpecContext) (hctx : ctx ∈ podSpecs) :
    ctx = (podSpecContext D (replicaParams es paramsTmpl ctx.NodeSpec) G).1 ∧
      replicaError D (replicaParams es paramsTmpl ctx.NodeSpec) G = none ∧
      ∃ node ∈ es.Spec.Nodes, 0 < node.NodeCount ∧ ctx.NodeSpec = withDefaultPVCs D node := by
  have hall := replicaError_none_of_ok D es paramsTmpl G podSpecs hok
  rw [NewExpectedPodSpecs_fst D es paramsTmpl G podSpecs hok] at hctx
  obtain ⟨r, hr, rfl⟩ := List.mem_map.1 hctx
  have hns := podSpecContext_NodeSpec D _ G (hall r hr)
  have hr2 : (podSpecContext D (replicaParams es paramsTmpl r) G).1.NodeSpec = r := hns
  rw [hr2]
  exact ⟨rfl, hall r hr, mem_replicas D es r hr⟩

/-- The volumes of a generated template. -/
theorem podSpecContext_Volumes (D : Deps) (p : NewPodSpecParams) (G : Generators)
    (h : replicaError D p G = none) :
    (podSpecContext D p G).1.PodTemplate.Spec.Volumes =
      appendUnlessPresent Volume.Name
        (appendUnlessPresent Volume.Name p.NodeSpec.PodTemplate.Spec.Volumes (podVolumes D p))
        ((p.KeystoreResources.map (fun keystore => keystore.Volume)).toList) := by
  obtain ⟨inits, v, u, ht⟩ := podSpecContext_PodTemplate D p G h
  rw [ht]
  exact volumesBuilder_Volumes D p G inits

/-- The mounts of the main container of a generated template. -/
theorem podSpecContext_VolumeMounts (D : Deps) (p : NewPodSpecParams) (G : Generators)
    (h : replicaError D p G = none) :
    (mainContainer (podSpecContext D p G).1.PodTemplate D.ElasticsearchContainerName).VolumeMounts =
      appendUnlessPresent VolumeMount.Name
        (mainContainer p.NodeSpec.PodTemplate D.ElasticsearchContainerName).VolumeMounts
        (podVolumeMounts D p) := by
  obtain ⟨inits, v, u, ht⟩ := podSpecContext_PodTemplate D p G h
  rw [ht]
  exact mainContainer_volumesBuilder D p G inits _

/-- The labels of a generated template. -/
theorem podSpecContext_Labels (D : Deps) (p : NewPodSpecParams) (G : Generators)
    (h : replicaError D p G = none) :
    ∃ esVersion unpackedCfg,
      (podSpecContext D p G).1.PodTemplate.ObjectMeta.Labels =
        appendUnlessPresent Prod.fst p.NodeSpec.PodTemplate.ObjectMeta.Labels
          (podLabels D p esVersion unpackedCfg) := by
  obtain ⟨inits, v, u, ht⟩ := podSpecContext_PodTemplate D p G h
  refine ⟨v, u, ?_⟩
  rw [ht]
  show appendUnlessPresent Prod.fst (volumesBuilder D p G inits).PodTemplate.ObjectMeta.Labels _ = _
  rw [volumesBuilder_Labels]

/-! ## Volume mounts of the main container -/

/-- C7 fails as stated: the data mount of the operator is missing from a main container
whose pod template mounts the data volume at a path of its own; the unicast-hosts mount
is missing when the caller's users-secret volume has the name of the unicast-hosts
volume; and the data mount occurs twice in a main container whose pod template declares
it twice. -/
theorem volumeMounts_exactly_once_counterexample :
    (∃ ctx,
      NewExpectedPodSpecs sampleDeps sampleCustomMountES sampleParams sampleGenerators
        = some ([ctx], none) ∧
      (mainContainer ctx.PodTemplate sampleDeps.ElasticsearchContainerName).VolumeMounts.count
        sampleDeps.DefaultDataVolumeMount = 0) ∧
    (∃ ctx,
      NewExpectedPodSpecs sampleDeps sampleTwoReplicas sampleClashingParams sampleGenerators
        = some ([ctx, ctx], none) ∧
      (mainContainer ctx.PodTemplate sampleDeps.ElasticsearchContainerName).VolumeMounts.count
        sampleClashingParams.UnicastHostsVolume.VolumeMount = 0) ∧
    (∃ ctx,
      NewExpectedPodSpecs sampleDeps sampleDuplicateMountES sampleParams sampleGenerators
        = some ([ctx], none) ∧
      (mainContainer ctx.PodTemplate sampleDeps.ElasticsearchContainerName).VolumeMounts.count
        sampleDeps.DefaultDataVolumeMount = 2) :=
  ⟨⟨(podSpecContext sampleDeps (replicaParams sampleCustomMountES sampleParams
      (withDefaultPVCs sampleDeps (sampleTemplateNode "master" [] sampleCustomMountTemplate)))
      sampleGenerators).1, by decide, by decide⟩,
   ⟨(podSpecContext sampleDeps (replicaParams sampleTwoReplicas sampleClashingParams
      (withDefaultPVCs sampleDeps (sampleNode "master" 2 []))) sampleGenerators).1,
    by decide, by decide⟩,
   ⟨(podSpecContext sampleDeps (replicaParams sampleDuplicateMountES sampleParams
      (withDefaultPVCs sampleDeps (sampleTemplateNode "master" [] sampleDuplicateMountTemplate)))
      sampleGenerators).1, by decide, by decide⟩⟩

/-- An entry of a list with pairwise distinct keys, absent by key from the merged list,
occurs exactly once after the merge. -/
theorem count_appendUnlessPresent_eq_one {α : Type} [DecidableEq α] (key : α → String)
    (acc new : List α) (x : α) (hx : x ∈ new) (hnew : (new.map key).Nodup)
    (hacc : ∀ y ∈ acc, key y ≠ key x) :
    (appendUnlessPresent key acc new).count x = 1 := by
  have hany : acc.any (fun y => key y == key x) = false := by
    rw [List.any_eq_false]
    intro y hy
    simpa using hacc y hy
  have hnewany : new.any (fun y => key y == key x) = true :=
    List.any_eq_true.2 ⟨x, hx, by simp⟩
  have hcount := countP_appendUnlessPresent key acc new (key x)
  rw [hany] at hcount
  simp only [Bool.false_eq_true, if_false, hnewany, if_true] at hcount
  have hle : (appendUnlessPresent key acc new).count x ≤ 1 := by
    rw [← hcount, List.count]
    apply List.countP_mono_left
    intro y _ hy
    have : y = x := by simpa using hy
    simp [this]
  have hfind := find?_appendUnlessPresent key acc new (key x)
  have hnone : acc.find? (fun y => key y == key x) = none := by
    rw [List.find?_eq_none]
    intro y hy
    simpa using hacc y hy
  rw [hnone, Option.none_or] at hfind
  have hsome : (new.find? (fun y => key y == key x)).isSome := by
    rw [List.find?_isSome]
    exact ⟨x, hx, by simp⟩
  obtain ⟨z, hz⟩ := Option.isSome_iff_exists.1 hsome
  have hzmem : z ∈ new := List.mem_of_find?_eq_some hz
  have hzkey : key z = key x := by simpa using List.find?_some hz
  have hzx : z = x := List.inj_on_of_nodup_map hnew hzmem hx hzkey
  rw [hz, hzx] at hfind
  have hmem : x ∈ appendUnlessPresent key acc new := List.mem_of_find?_eq_some hfind
  have hpos : 0 < (appendUnlessPresent key acc new).count x := List.count_pos_iff.2 hmem
  omega

/-- C7, amended: on success, when the mounts that `podSpecContext` attaches (the plugin
mounts and the nine data, logs, users-secret, unicast-hosts, probe-user,
transport-certificate, http-certificate, scripts and configuration mounts) have pairwise
distinct names and the main container of the node group's pod template declares no
mount under the name of one of the nine, the main container of the context holds each of
the nine mounts exactly once; the mounts that the pod template declares are kept as they
are, ahead of the attached ones. -/
theorem volumeMounts_exactly_once (D : Deps) (es : Elasticsearch) (paramsTmpl : NewPodSpecParams)
    (G : Generators) (podSpecs : List PodSpecContext)
    (hok : NewExpectedPodSpecs D es paramsTmpl G = some (podSpecs, none))
    (ctx : PodSpecContext) (hctx : ctx ∈ podSpecs)
    (hdistinct : ((podVolumeMounts D (replicaParams es paramsTmpl ctx.NodeSpec)).map
      VolumeMount.Name).Nodup)
    (huser : ∀ m ∈ (mainContainer ctx.NodeSpec.PodTemplate D.ElasticsearchContainerName).VolumeMounts,
      ∀ r ∈ requiredVolumeMounts D (replicaParams es paramsTmpl ctx.NodeSpec), m.Name ≠ r.Name) :
    (∀ r ∈ requiredVolumeMounts D (replicaParams es paramsTmpl ctx.NodeSpec),
      (mainContainer ctx.PodTemplate D.ElasticsearchContainerName).VolumeMounts.count r = 1) ∧
    ∃ attached, (mainContainer ctx.PodTemplate D.ElasticsearchContainerName).VolumeMounts =
      (mainContainer ctx.NodeSpec.PodTemplate D.ElasticsearchContainerName).VolumeMounts ++ attached := by
  obtain ⟨hctxeq, hnone, _⟩ := mem_NewExpectedPodSpecs D es paramsTmpl G podSpecs hok ctx hctx
  have hm := podSpecContext_VolumeMounts D _ G hnone
  rw [← hctxeq] at hm
  have hp : (replicaParams es paramsTmpl ctx.NodeSpec).NodeSpec = ctx.NodeSpec := rfl
  rw [hp] at hm
  rw [hm]
  refine ⟨?_, appendUnlessPresent_extends _ _ _⟩
  intro r hr
  apply count_appendUnlessPresent_eq_one VolumeMount.Name _ _ r _ hdistinct
  · intro y hy
    exact huser y hy r hr
  · unfold podVolumeMounts
    exact List.mem_append_right _ hr

/-- C7, amended, on the first context of a cluster with replica counts 3, 0 and 2. -/
theorem volumeMounts_exactly_once_witness :
    (∀ r ∈ requiredVolumeMounts sampleDeps (replicaParams sampleES sampleParams
        (withDefaultPVCs sampleDeps (sampleNode "master" 3 [⟨"data", 1073741824⟩]))),
      (mainContainer
        (podSpecContext sampleDeps (replicaParams sampleES sampleParams
          (withDefaultPVCs sampleDeps (sampleNode "master" 3 [⟨"data", 1073741824⟩])))
          sampleGenerators).1.PodTemplate
        sampleDeps.ElasticsearchContainerName).VolumeMounts.count r = 1) ∧
    ∃ attached,
      (mainContainer
        (podSpecContext sampleDeps (replicaParams sampleES sampleParams
          (withDefaultPVCs sampleDeps (sampleNode "master" 3 [⟨"data", 1073741824⟩])))
          sampleGenerators).1.PodTemplate
        sampleDeps.ElasticsearchContainerName).VolumeMounts =
      (mainContainer (withDefaultPVCs sampleDeps (sampleNode "master" 3 [⟨"data", 1073741824⟩])).PodTemplate
        sampleDeps.ElasticsearchContainerName).VolumeMounts ++ attached :=
  volumeMounts_exactly_once sampleDeps sampleES sampleParams sampleGenerators
    (sampleContexts sampleES sampleParams) (by decide)
    (podSpecContext sampleDeps (replicaParams sampleES sampleParams
      (withDefaultPVCs sampleDeps (sampleNode "master" 3 [⟨"data", 1073741824⟩])))
      sampleGenerators).1
    (by decide) (by decide) (by decide)

/-! ## Volumes of the generated templates -/

/-- C4 fails as stated: a persistent-volume-claim volume of the node group's pod template
is carried into the generated template with its concrete claim name. -/
theorem volumes_placeholders_counterexample :
    ∃ ctx,
      NewExpectedPodSpecs sampleDeps sampleClaimVolumeES sampleParams sampleGenerators
        = some ([ctx], none) ∧
      (⟨"backup", .PersistentVolumeClaim "nightly-backup"⟩ : Volume) ∈ ctx.PodTemplate.Spec.Volumes ∧
      "nightly-backup" ≠ claimNamePlaceholder :=
  ⟨(podSpecContext sampleDeps (replicaParams sampleClaimVolumeES sampleParams
      (withDefaultPVCs sampleDeps (sampleTemplateNode "master" [] sampleClaimVolumeTemplate)))
      sampleGenerators).1, by decide, by decide, by decide⟩

/-- C4, amended: on success every volume of a generated template is a volume of the node
group's pod template, kept as given, or a volume whose reference is known at generation
time (plugin, logs, users-secret, unicast-hosts, probe-user, http-certificates, scripts,
keystore), or a volume named after a claim template whose persistent-volume-claim
reference is the token "claim-name-placeholder", or the transport-certificate volume
whose secret name is built from the token "pod-name-placeholder", or the configuration
secret volume built from that token; the last two do not depend on the cluster, the node
group or the ordinal. -/
theorem volumes_placeholders (D : Deps) (es : Elasticsearch) (paramsTmpl : NewPodSpecParams)
    (G : Generators) (podSpecs : List PodSpecContext)
    (hok : NewExpectedPodSpecs D es paramsTmpl G = some (podSpecs, none))
    (ctx : PodSpecContext) (hctx : ctx ∈ podSpecs)
    (v : Volume) (hvmem : v ∈ ctx.PodTemplate.Spec.Volumes) :
    v ∈ ctx.NodeSpec.PodTemplate.Spec.Volumes ∨
    v ∈ resolvedVolumes D (replicaParams es paramsTmpl ctx.NodeSpec) ∨
    (v.VolumeSource = .PersistentVolumeClaim "claim-name-placeholder" ∧
      ∃ claimTemplate ∈ ctx.NodeSpec.VolumeClaimTemplates, v.Name = claimTemplate.Name) ∨
    v = ⟨D.TransportCertificatesSecretVolumeName,
      .Secret (D.TransportCertsSecret "pod-name-placeholder") []⟩ ∨
    v = (D.ConfigSecretVolume "pod-name-placeholder").Volume := by
  obtain ⟨hctxeq, hnone, _⟩ := mem_NewExpectedPodSpecs D es paramsTmpl G podSpecs hok ctx hctx
  have hv := podSpecContext_Volumes D _ G hnone
  rw [← hctxeq] at hv
  have hp : (replicaParams es paramsTmpl ctx.NodeSpec).NodeSpec = ctx.NodeSpec := rfl
  rw [hp] at hv
  rw [hv] at hvmem
  rcases mem_appendUnlessPresent _ _ _ v hvmem with h1 | h1
  · rcases mem_appendUnlessPresent _ _ _ v h1 with h2 | h2
    · exact Or.inl h2
    · simp only [podVolumes, persistentVolumes, List.mem_append, List.mem_map, List.mem_cons,
        List.mem_singleton, List.not_mem_nil, or_false] at h2
      rcases h2 with ⟨c, hc, rfl⟩ | h3 | h3 | h3 | h3 | h3 | h3 | h3 | h3 | h3
      · exact Or.inr (Or.inr (Or.inl ⟨rfl, c, hc, rfl⟩))
      · exact Or.inr (Or.inl (by simp [resolvedVolumes, h3]))
      · exact Or.inr (Or.inl (by simp [resolvedVolumes, h3]))
      · exact Or.inr (Or.inl (by simp [resolvedVolumes, h3]))
      · exact Or.inr (Or.inl (by simp [resolvedVolumes, h3]))
      · exact Or.inr (Or.inl (by simp [resolvedVolumes, h3]))
      · exact Or.inr (Or.inr (Or.inr (Or.inl h3)))
      · exact Or.inr (Or.inl (by simp [resolvedVolumes, h3]))
      · exact Or.inr (Or.inl (by simp [resolvedVolumes, h3]))
      · exact Or.inr (Or.inr (Or.inr (Or.inr h3)))
  · refine Or.inr (Or.inl ?_)
    unfold resolvedVolumes
    exact List.mem_append_right _ h1

/-- C4, amended, on the transport-certificate volume of the context of a node group that
mounts an existing claim. -/
theorem volumes_placeholders_witness :
    (⟨"elastic-internal-transport-certificates", .Secret "pod-name-placeholder-certs" []⟩ : Volume) ∈
      (withDefaultPVCs sampleDeps
        (sampleTemplateNode "master" [] sampleClaimVolumeTemplate)).PodTemplate.Spec.Volumes ∨
    (⟨"elastic-internal-transport-certificates", .Secret "pod-name-placeholder-certs" []⟩ : Volume) ∈
      resolvedVolumes sampleDeps (replicaParams sampleClaimVolumeES sampleParams
        (withDefaultPVCs sampleDeps (sampleTemplateNode "master" [] sampleClaimVolumeTemplate))) ∨
    ((⟨"elastic-internal-transport-certificates",
          .Secret "pod-name-placeholder-certs" []⟩ : Volume).VolumeSource
        = .PersistentVolumeClaim "claim-name-placeholder" ∧
      ∃ claimTemplate ∈ (withDefaultPVCs sampleDeps
        (sampleTemplateNode "master" [] sampleClaimVolumeTemplate)).VolumeClaimTemplates,
        (⟨"elastic-internal-transport-certificates",
          .Secret "pod-name-placeholder-certs" []⟩ : Volume).Name = claimTemplate.Name) ∨
    (⟨"elastic-internal-transport-certificates", .Secret "pod-name-placeholder-certs" []⟩ : Volume) =
      ⟨sampleDeps.TransportCertificatesSecretVolumeName,
        .Secret (sampleDeps.TransportCertsSecret "pod-name-placeholder") []⟩ ∨
    (⟨"elastic-internal-transport-certificates", .Secret "pod-name-placeholder-certs" []⟩ : Volume) =
      (sampleDeps.ConfigSecretVolume "pod-name-placeholder").Volume :=
  volumes_placeholders sampleDeps sampleClaimVolumeES sampleParams sampleGenerators
    (sampleContexts sampleClaimVolumeES sampleParams) (by decide)
    (podSpecContext sampleDeps (replicaParams sampleClaimVolumeES sampleParams
      (withDefaultPVCs sampleDeps (sampleTemplateNode "master" [] sampleClaimVolumeTemplate)))
      sampleGenerators).1
    (by decide) ⟨"elastic-internal-transport-certificates", .Secret "pod-name-placeholder-certs" []⟩
    (by decide)

/-- The claims declared on a node group come first among its claims with defaults. -/
theorem AppendDefaultPVCs_extends (existing : List PersistentVolumeClaim) (podSpec : PodSpec)
    (defaults : List PersistentVolumeClaim) :
    ∃ added, AppendDefaultPVCs existing podSpec defaults = existing ++ added := by
  induction defaults generalizing existing with
  | nil => exact ⟨[], by simp [AppendDefaultPVCs]⟩
  | cons d ds ih =>
    rw [AppendDefaultPVCs]
    split
    · exact ih existing
    · obtain ⟨t, ht⟩ := ih (existing ++ [d])
      exact ⟨d :: t, by simp [ht]⟩

/-- C5 fails as stated: a node group declares a claim `data` and its pod template a volume
`data` of its own; the generated template keeps that volume and has no volume `data`
referring to the placeholder claim. -/
theorem claim_volumes_counterexample :
    ∃ ctx,
      NewExpectedPodSpecs sampleDeps sampleOwnDataES sampleParams sampleGenerators
        = some ([ctx], none) ∧
      (⟨"data", 1073741824⟩ : PersistentVolumeClaim) ∈
        (sampleTemplateNode "master" [⟨"data", 1073741824⟩] sampleOwnDataTemplate).VolumeClaimTemplates ∧
      (⟨"data", .EmptyDir⟩ : Volume) ∈ ctx.PodTemplate.Spec.Volumes ∧
      ∀ v ∈ ctx.PodTemplate.Spec.Volumes,
        ¬ (v.Name = "data" ∧ v.VolumeSource = .PersistentVolumeClaim claimNamePlaceholder) :=
  ⟨(podSpecContext sampleDeps (replicaParams sampleOwnDataES sampleParams
      (withDefaultPVCs sampleDeps
        (sampleTemplateNode "master" [⟨"data", 1073741824⟩] sampleOwnDataTemplate)))
      sampleGenerators).1, by decide, by decide, by decide, by decide⟩

/-- C5, amended: for every volume-claim template declared on a node group, each context
generated for the group has a template volume of the claim template's name; unless the
pod template of the group declares a volume of that name itself, which is then kept, the
volume of the claim template's name whose persistent-volume-claim reference is the token
"claim-name-placeholder" is in the template. The placeholder volumes are built one per
claim template, in claim-template order, the declared claims before the default ones. -/
theorem claim_volumes (D : Deps) (es : Elasticsearch) (paramsTmpl : NewPodSpecParams)
    (G : Generators) (podSpecs : List PodSpecContext)
    (hok : NewExpectedPodSpecs D es paramsTmpl G = some (podSpecs, none))
    (node : NodeSpec) (claimTemplate : PersistentVolumeClaim)
    (hclaim : claimTemplate ∈ node.VolumeClaimTemplates)
    (ctx : PodSpecContext) (hctx : ctx ∈ podSpecs)
    (hgroup : ctx.NodeSpec = withDefaultPVCs D node) :
    (∃ v ∈ ctx.PodTemplate.Spec.Volumes, v.Name = claimTemplate.Name) ∧
    ((∀ v ∈ node.PodTemplate.Spec.Volumes, v.Name ≠ claimTemplate.Name) →
      (⟨claimTemplate.Name, .PersistentVolumeClaim "claim-name-placeholder"⟩ : Volume) ∈
        ctx.PodTemplate.Spec.Volumes) ∧
    persistentVolumes (replicaParams es paramsTmpl ctx.NodeSpec) =
      ctx.NodeSpec.VolumeClaimTemplates.map (fun c =>
        (⟨c.Name, .PersistentVolumeClaim "claim-name-placeholder"⟩ : Volume)) ∧
    ∃ defaults, ctx.NodeSpec.VolumeClaimTemplates = node.VolumeClaimTemplates ++ defaults := by
  obtain ⟨hctxeq, hnone, _⟩ := mem_NewExpectedPodSpecs D es paramsTmpl G podSpecs hok ctx hctx
  have hv := podSpecContext_Volumes D _ G hnone
  rw [← hctxeq] at hv
  have hp : (replicaParams es paramsTmpl ctx.NodeSpec).NodeSpec = ctx.NodeSpec := rfl
  rw [hp] at hv
  have hpre : ∃ defaults,
      ctx.NodeSpec.VolumeClaimTemplates = node.VolumeClaimTemplates ++ defaults := by
    rw [hgroup]
    exact AppendDefaultPVCs_extends _ _ _
  have htpl : ctx.NodeSpec.PodTemplate = node.PodTemplate := by rw [hgroup]; rfl
  have hclaim2 : claimTemplate ∈ ctx.NodeSpec.VolumeClaimTemplates := by
    obtain ⟨ds, hds⟩ := hpre
    rw [hds]
    exact List.mem_append_left _ hclaim
  -- the first volume of the claim's name among the attached ones is the placeholder volume
  have hfirst : (podVolumes D (replicaParams es paramsTmpl ctx.NodeSpec)).find?
      (fun v => v.Name == claimTemplate.Name) =
      some ⟨claimTemplate.Name, .PersistentVolumeClaim "claim-name-placeholder"⟩ := by
    have hsome : ((persistentVolumes (replicaParams es paramsTmpl ctx.NodeSpec)).find?
        (fun v => v.Name == claimTemplate.Name)).isSome := by
      rw [List.find?_isSome]
      refine ⟨⟨claimTemplate.Name, .PersistentVolumeClaim claimNamePlaceholder⟩, ?_, by simp⟩
      unfold persistentVolumes
      exact List.mem_map.2 ⟨claimTemplate, hclaim2, rfl⟩
    obtain ⟨z, hz⟩ := Option.isSome_iff_exists.1 hsome
    have hzmem := List.mem_of_find?_eq_some hz
    have hzname : z.Name = claimTemplate.Name := by simpa using List.find?_some hz
    unfold persistentVolumes at hzmem
    obtain ⟨c, _, hcz⟩ := List.mem_map.1 hzmem
    have hzeq : z = ⟨claimTemplate.Name, .PersistentVolumeClaim "claim-name-placeholder"⟩ := by
      rw [← hcz] at hzname ⊢
      simp only at hzname
      rw [hzname]
      rfl
    unfold podVolumes
    rw [List.find?_append, hz, hzeq]
    rfl
  have hplace : (∀ v ∈ node.PodTemplate.Spec.Volumes, v.Name ≠ claimTemplate.Name) →
      (⟨claimTemplate.Name, .PersistentVolumeClaim "claim-name-placeholder"⟩ : Volume) ∈
        ctx.PodTemplate.Spec.Volumes := by
    intro huser
    rw [hv]
    apply mem_appendUnlessPresent_of_mem
    apply List.mem_of_find?_eq_some (p := fun v => v.Name == claimTemplate.Name)
    rw [find?_appendUnlessPresent, htpl]
    have hnone : node.PodTemplate.Spec.Volumes.find? (fun v => v.Name == claimTemplate.Name)
        = none := by
      rw [List.find?_eq_none]
      intro y hy
      simpa using huser y hy
    rw [hnone, Option.none_or, hfirst]
  refine ⟨?_, hplace, rfl, hpre⟩
  by_cases huser : ∀ v ∈ node.PodTemplate.Spec.Volumes, v.Name ≠ claimTemplate.Name
  · exact ⟨_, hplace huser, rfl⟩
  · push_neg at huser
    obtain ⟨v, hvmem, hvname⟩ := huser
    refine ⟨v, ?_, hvname⟩
    rw [hv]
    apply mem_appendUnlessPresent_of_mem
    apply mem_appendUnlessPresent_of_mem
    rw [htpl]
    exact hvmem

/-! ## The checksum label of the keystore version -/

theorem labelGet_labelSet (m : Labels) (k v : String) : labelGet (labelSet m k v) k = some v := by
  simp [labelGet, labelSet]

/-- Reading a key after a merge of labels: the merged value, else the appended one. -/
theorem labelGet_appendUnlessPresent (existing labels : Labels) (k : String) :
    labelGet (appendUnlessPresent Prod.fst existing labels) k =
      (labelGet existing k).or (labelGet labels k) := by
  unfold labelGet
  rw [find?_appendUnlessPresent]
  cases existing.find? (fun e => e.1 == k) <;> simp

/-- The digest of the empty message (the test vector of the algorithm's specification). -/
theorem sha224_empty_message :
    hexString (SHA224.sum (stringBytes "")) =
      "d14a028c2a3a2bc9476102bb288234c415a2b01f828ea62ac5b3e42f" := by
  set_option maxRecDepth 100000 in decide

/-- The digest of the one-block test message. -/
theorem sha224_one_block_message :
    hexString (SHA224.sum (stringBytes "abc")) =
      "23097d223405d8228642a477bda255b32aadbce4bda0b3f7e36c9da7" := by
  set_option maxRecDepth 100000 in decide

/-- The digest of the two-block test message. -/
theorem sha224_two_block_message :
    hexString (SHA224.sum
      (stringBytes "abcdbcdecdefdefgefghfghighijhijkijkljklmklmnlmnomnopnopq")) =
      "75388b16512776cc5dba5da1fd890150b0c6455cb4f58b1952522525" := by
  set_option maxRecDepth 100000 in decide

/-- The bytes of a word only depend on its low 32 bits. -/
theorem wordBytes_mod (w : Nat) : SHA224.wordBytes (w % 4294967296) = SHA224.wordBytes w := by
  unfold SHA224.wordBytes
  have h1 : w % 4294967296 / 16777216 % 256 = w / 16777216 % 256 := by omega
  have h2 : w % 4294967296 / 65536 % 256 = w / 65536 % 256 := by omega
  have h3 : w % 4294967296 / 256 % 256 = w / 256 % 256 := by omega
  have h4 : w % 4294967296 % 256 = w % 256 := by omega
  rw [h1, h2, h3, h4]

/-- Two keystore versions have the same checksum: the versions are infinitely many, the
digests are not. -/
theorem keystoreChecksum_collision : ∃ v1 v2 : String, v1 ≠ v2 ∧
    keystoreChecksum v1 = keystoreChecksum v2 := by
  have hN : 0 < 4294967296 := by norm_num
  let m : Nat → Fin 4294967296 := fun n => ⟨n % 4294967296, Nat.mod_lt _ hN⟩
  let g : String → Fin 4294967296 × Fin 4294967296 × Fin 4294967296 × Fin 4294967296 ×
      Fin 4294967296 × Fin 4294967296 × Fin 4294967296 := fun v =>
    (m (SHA224.final (stringBytes v)).a, m (SHA224.final (stringBytes v)).b,
     m (SHA224.final (stringBytes v)).c, m (SHA224.final (stringBytes v)).d,
     m (SHA224.final (stringBytes v)).e, m (SHA224.final (stringBytes v)).f,
     m (SHA224.final (stringBytes v)).g)
  obtain ⟨v1, v2, hne, hg⟩ := Finite.exists_ne_map_eq_of_infinite g
  refine ⟨v1, v2, hne, ?_⟩
  simp only [g, m, Prod.mk.injEq, Fin.mk.injEq] at hg
  obtain ⟨h0, h1, h2, h3, h4, h5, h6⟩ := hg
  unfold keystoreChecksum SHA224.sum
  simp only [List.flatMap_cons, List.flatMap_nil]
  rw [← wordBytes_mod (SHA224.final (stringBytes v1)).a,
    ← wordBytes_mod (SHA224.final (stringBytes v1)).b,
    ← wordBytes_mod (SHA224.final (stringBytes v1)).c,
    ← wordBytes_mod (SHA224.final (stringBytes v1)).d,
    ← wordBytes_mod (SHA224.final (stringBytes v1)).e,
    ← wordBytes_mod (SHA224.final (stringBytes v1)).f,
    ← wordBytes_mod (SHA224.final (stringBytes v1)).g,
    h0, h1, h2, h3, h4, h5, h6,
    wordBytes_mod, wordBytes_mod, wordBytes_mod, wordBytes_mod, wordBytes_mod, wordBytes_mod,
    wordBytes_mod]

/-- The checksum label of a context generated with keystore resources: the value that the
pod template of the node group sets, else the checksum of the keystore version. -/
theorem labelGet_checksum (D : Deps) (es : Elasticsearch) (paramsTmpl : NewPodSpecParams)
    (G : Generators) (keystore : KeystoreResources)
    (hkeystore : paramsTmpl.KeystoreResources = some keystore)
    (podSpecs : List PodSpecContext)
    (hok : NewExpectedPodSpecs D es paramsTmpl G = some (podSpecs, none))
    (ctx : PodSpecContext) (hctx : ctx ∈ podSpecs) :
    labelGet ctx.PodTemplate.ObjectMeta.Labels D.ConfigChecksumLabelName =
      (labelGet ctx.NodeSpec.PodTemplate.ObjectMeta.Labels D.ConfigChecksumLabelName).or
        (some (keystoreChecksum keystore.Version)) := by
  obtain ⟨hctxeq, hnone, _⟩ := mem_NewExpectedPodSpecs D es paramsTmpl G podSpecs hok ctx hctx
  obtain ⟨v, u, hl⟩ := podSpecContext_Labels D _ G hnone
  rw [← hctxeq] at hl
  have hp : (replicaParams es paramsTmpl ctx.NodeSpec).NodeSpec = ctx.NodeSpec := rfl
  rw [hp] at hl
  rw [hl, labelGet_appendUnlessPresent]
  have hk : (replicaParams es paramsTmpl ctx.NodeSpec).KeystoreResources = some keystore :=
    hkeystore
  simp only [podLabels, hk, labelGet_labelSet]
  rfl

/-- C6 fails as stated: when the pod template of the node group sets the checksum label
itself, the label of the generated contexts is that value for the keystore versions "1"
and "2" alike, and not the digest; and for a pod template without the label there are two
distinct keystore versions whose generated contexts carry the same checksum label. -/
theorem checksum_label_counterexample :
    (∃ ctx1 ctx2,
      NewExpectedPodSpecs sampleDeps samplePinnedLabelES (sampleKeystoreParams "1")
        sampleGenerators = some ([ctx1], none) ∧
      NewExpectedPodSpecs sampleDeps samplePinnedLabelES (sampleKeystoreParams "2")
        sampleGenerators = some ([ctx2], none) ∧
      labelGet ctx1.PodTemplate.ObjectMeta.Labels sampleDeps.ConfigChecksumLabelName
        = some "pinned" ∧
      labelGet ctx2.PodTemplate.ObjectMeta.Labels sampleDeps.ConfigChecksumLabelName
        = some "pinned" ∧
      keystoreChecksum "1" ≠ "pinned") ∧
    (∃ v1 v2 : String, v1 ≠ v2 ∧
      NewExpectedPodSpecs sampleDeps sampleTwoReplicas (sampleKeystoreParams v1) sampleGenerators
        = some (sampleContexts sampleTwoReplicas (sampleKeystoreParams v1), none) ∧
      NewExpectedPodSpecs sampleDeps sampleTwoReplicas (sampleKeystoreParams v2) sampleGenerators
        = some (sampleContexts sampleTwoReplicas (sampleKeystoreParams v2), none) ∧
      (sampleContexts sampleTwoReplicas (sampleKeystoreParams v1)).length = 2 ∧
      (sampleContexts sampleTwoReplicas (sampleKeystoreParams v2)).length = 2 ∧
      ∀ ctx1 ∈ sampleContexts sampleTwoReplicas (sampleKeystoreParams v1),
        ∀ ctx2 ∈ sampleContexts sampleTwoReplicas (sampleKeystoreParams v2),
          labelGet ctx1.PodTemplate.ObjectMeta.Labels sampleDeps.ConfigChecksumLabelName =
            labelGet ctx2.PodTemplate.ObjectMeta.Labels sampleDeps.ConfigChecksumLabelName) := by
  refine ⟨⟨(podSpecContext sampleDeps (replicaParams samplePinnedLabelES (sampleKeystoreParams "1")
      (withDefaultPVCs sampleDeps (sampleTemplateNode "master" [] samplePinnedLabelTemplate)))
      sampleGenerators).1,
    (podSpecContext sampleDeps (replicaParams samplePinnedLabelES (sampleKeystoreParams "2")
      (withDefaultPVCs sampleDeps (sampleTemplateNode "master" [] samplePinnedLabelTemplate)))
      sampleGenerators).1, by decide, by decide, by decide, by decide, ?_⟩, ?_⟩
  · set_option maxRecDepth 100000 in decide
  · obtain ⟨v1, v2, hne, hcol⟩ := keystoreChecksum_collision
    have hok : ∀ v, NewExpectedPodSpecs sampleDeps sampleTwoReplicas (sampleKeystoreParams v)
        sampleGenerators = some (sampleContexts sampleTwoReplicas (sampleKeystoreParams v), none) :=
      fun v => NewExpectedPodSpecs_of_ok sampleDeps sampleTwoReplicas (sampleKeystoreParams v)
        sampleGenerators (by decide) rfl
    have huser : ∀ v, ∀ ctx ∈ sampleContexts sampleTwoReplicas (sampleKeystoreParams v),
        labelGet ctx.NodeSpec.PodTemplate.ObjectMeta.Labels sampleDeps.ConfigChecksumLabelName
          = none := by
      intro v ctx hctx
      obtain ⟨_, _, node, hnode, _, hgroup⟩ :=
        mem_NewExpectedPodSpecs sampleDeps sampleTwoReplicas _ sampleGenerators _ (hok v) ctx hctx
      rw [hgroup]
      have hall : ∀ node ∈ sampleTwoReplicas.Spec.Nodes,
          labelGet (withDefaultPVCs sampleDeps node).PodTemplate.ObjectMeta.Labels
            sampleDeps.ConfigChecksumLabelName = none := by decide
      exact hall node hnode
    refine ⟨v1, v2, hne, hok v1, hok v2, rfl, rfl, ?_⟩
    intro ctx1 h1 ctx2 h2
    rw [labelGet_checksum sampleDeps sampleTwoReplicas _ sampleGenerators (sampleKeystore v1) rfl
        _ (hok v1) ctx1 h1,
      labelGet_checksum sampleDeps sampleTwoReplicas _ sampleGenerators (sampleKeystore v2) rfl
        _ (hok v2) ctx2 h2,
      huser v1 ctx1 h1, huser v2 ctx2 h2]
    show some (keystoreChecksum v1) = some (keystoreChecksum v2)
    rw [hcol]

/-- C6, amended: when keystore resources are present and the pod template of the node
group does not set the checksum label itself, the checksum label of a generated context
is the lowercase hexadecimal SHA-224 digest of the keystore version; so for two
generation calls the labels are equal when the keystore versions are equal, and differ
when the digests of the two versions differ. -/
theorem checksum_label (D : Deps) (es : Elasticsearch) (G : Generators)
    (paramsTmpl1 paramsTmpl2 : NewPodSpecParams) (keystore1 keystore2 : KeystoreResources)
    (hkeystore1 : paramsTmpl1.KeystoreResources = some keystore1)
    (hkeystore2 : paramsTmpl2.KeystoreResources = some keystore2)
    (podSpecs1 podSpecs2 : List PodSpecContext)
    (hok1 : NewExpectedPodSpecs D es paramsTmpl1 G = some (podSpecs1, none))
    (hok2 : NewExpectedPodSpecs D es paramsTmpl2 G = some (podSpecs2, none))
    (ctx1 : PodSpecContext) (hctx1 : ctx1 ∈ podSpecs1)
    (ctx2 : PodSpecContext) (hctx2 : ctx2 ∈ podSpecs2)
    (huser1 : labelGet ctx1.NodeSpec.PodTemplate.ObjectMeta.Labels D.ConfigChecksumLabelName = none)
    (huser2 : labelGet ctx2.NodeSpec.PodTemplate.ObjectMeta.Labels D.ConfigChecksumLabelName = none) :
    labelGet ctx1.PodTemplate.ObjectMeta.Labels D.ConfigChecksumLabelName =
        some (hexString (SHA224.sum (stringBytes keystore1.Version))) ∧
    labelGet ctx2.PodTemplate.ObjectMeta.Labels D.ConfigChecksumLabelName =
        some (hexString (SHA224.sum (stringBytes keystore2.Version))) ∧
    (keystore1.Version = keystore2.Version →
      labelGet ctx1.PodTemplate.ObjectMeta.Labels D.ConfigChecksumLabelName =
        labelGet ctx2.PodTemplate.ObjectMeta.Labels D.ConfigChecksumLabelName) ∧
    (hexString (SHA224.sum (stringBytes keystore1.Version)) ≠
        hexString (SHA224.sum (stringBytes keystore2.Version)) →
      labelGet ctx1.PodTemplate.ObjectMeta.Labels D.ConfigChecksumLabelName ≠
        labelGet ctx2.PodTemplate.ObjectMeta.Labels D.ConfigChecksumLabelName) := by
  have h1 := labelGet_checksum D es paramsTmpl1 G keystore1 hkeystore1 podSpecs1 hok1 ctx1 hctx1
  have h2 := labelGet_checksum D es paramsTmpl2 G keystore2 hkeystore2 podSpecs2 hok2 ctx2 hctx2
  rw [huser1, Option.none_or] at h1
  rw [huser2, Option.none_or] at h2
  refine ⟨h1, h2, ?_, ?_⟩
  · intro hv
    rw [h1, h2, keystoreChecksum, keystoreChecksum, hv]
  · intro hd heq
    rw [h1, h2] at heq
    exact hd (Option.some.inj heq)

/-- C6, amended, on two calls that differ in the keystore version, "1" and "2": the two
digests differ, and so do the labels. -/
theorem checksum_label_witness :
    hexString (SHA224.sum (stringBytes "1")) ≠ hexString (SHA224.sum (stringBytes "2")) ∧
    (labelGet
        (podSpecContext sampleDeps (replicaParams sampleTwoReplicas (sampleKeystoreParams "1")
          (withDefaultPVCs sampleDeps (sampleNode "master" 2 []))) sampleGenerators
        ).1.PodTemplate.ObjectMeta.Labels sampleDeps.ConfigChecksumLabelName =
        some (hexString (SHA224.sum (stringBytes (sampleKeystore "1").Version))) ∧
    labelGet
        (podSpecContext sampleDeps (replicaParams sampleTwoReplicas (sampleKeystoreParams "2")
          (withDefaultPVCs sampleDeps (sampleNode "master" 2 []))) sampleGenerators
        ).1.PodTemplate.ObjectMeta.Labels sampleDeps.ConfigChecksumLabelName =
        some (hexString (SHA224.sum (stringBytes (sampleKeystore "2").Version))) ∧
    ((sampleKeystore "1").Version = (sampleKeystore "2").Version →
      labelGet
        (podSpecContext sampleDeps (replicaParams sampleTwoReplicas (sampleKeystoreParams "1")
          (withDefaultPVCs sampleDeps (sampleNode "master" 2 []))) sampleGenerators
        ).1.PodTemplate.ObjectMeta.Labels sampleDeps.ConfigChecksumLabelName =
      labelGet
        (podSpecContext sampleDeps (replicaParams sampleTwoReplicas (sampleKeystoreParams "2")
          (withDefaultPVCs sampleDeps (sampleNode "master" 2 []))) sampleGenerators
        ).1.PodTemplate.ObjectMeta.Labels sampleDeps.ConfigChecksumLabelName) ∧
    (hexString (SHA224.sum (stringBytes (sampleKeystore "1").Version)) ≠
        hexString (SHA224.sum (stringBytes (sampleKeystore "2").Version)) →
      labelGet
        (podSpecContext sampleDeps (replicaParams sampleTwoReplicas (sampleKeystoreParams "1")
          (withDefaultPVCs sampleDeps (sampleNode "master" 2 []))) sampleGenerators
        ).1.PodTemplate.ObjectMeta.Labels sampleDeps.ConfigChecksumLabelName ≠
      labelGet
        (podSpecContext sampleDeps (replicaParams sampleTwoReplicas (sampleKeystoreParams "2")
          (withDefaultPVCs sampleDeps (sampleNode "master" 2 []))) sampleGenerators
        ).1.PodTemplate.ObjectMeta.Labels sampleDeps.ConfigChecksumLabelName)) :=
  ⟨by set_option maxRecDepth 100000 in decide,
   checksum_label sampleDeps sampleTwoReplicas sampleGenerators
    (sampleKeystoreParams "1") (sampleKeystoreParams "2") (sampleKeystore "1") (sampleKeystore "2")
    rfl rfl
    (sampleContexts sampleTwoReplicas (sampleKeystoreParams "1"))
    (sampleContexts sampleTwoReplicas (sampleKeystoreParams "2")) (by decide) (by decide)
    (podSpecContext sampleDeps (replicaParams sampleTwoReplicas (sampleKeystoreParams "1")
      (withDefaultPVCs sampleDeps (sampleNode "master" 2 []))) sampleGenerators).1
    (by decide)
    (podSpecContext sampleDeps (replicaParams sampleTwoReplicas (sampleKeystoreParams "2")
      (withDefaultPVCs sampleDeps (sampleNode "master" 2 []))) sampleGenerators).1
    (by decide) (by decide) (by decide)⟩

/-- C5, amended, on a node group of three replicas with one claim named `data`: three
contexts, each with the placeholder volume `data`. -/
theorem claim_volumes_witness :
    NewExpectedPodSpecs sampleDeps sampleDataClaimES sampleParams sampleGenerators =
      some (sampleContexts sampleDataClaimES sampleParams, none) ∧
    (sampleContexts sampleDataClaimES sampleParams).length = 3 ∧
    (∀ ctx ∈ sampleContexts sampleDataClaimES sampleParams,
      (⟨"data", .PersistentVolumeClaim "claim-name-placeholder"⟩ : Volume) ∈
        ctx.PodTemplate.Spec.Volumes) ∧
    ((∃ v ∈ (podSpecContext sampleDeps (replicaParams sampleDataClaimES sampleParams
        (withDefaultPVCs sampleDeps (sampleNode "master" 3 [⟨"data", 1073741824⟩])))
        sampleGenerators).1.PodTemplate.Spec.Volumes,
        v.Name = (⟨"data", 1073741824⟩ : PersistentVolumeClaim).Name) ∧
    ((∀ v ∈ (sampleNode "master" 3 [⟨"data", 1073741824⟩]).PodTemplate.Spec.Volumes,
        v.Name ≠ (⟨"data", 1073741824⟩ : PersistentVolumeClaim).Name) →
      (⟨(⟨"data", 1073741824⟩ : PersistentVolumeClaim).Name,
        .PersistentVolumeClaim "claim-name-placeholder"⟩ : Volume) ∈
        (podSpecContext sampleDeps (replicaParams sampleDataClaimES sampleParams
          (withDefaultPVCs sampleDeps (sampleNode "master" 3 [⟨"data", 1073741824⟩])))
          sampleGenerators).1.PodTemplate.Spec.Volumes) ∧
    persistentVolumes (replicaParams sampleDataClaimES sampleParams
        (withDefaultPVCs sampleDeps (sampleNode "master" 3 [⟨"data", 1073741824⟩]))) =
      (withDefaultPVCs sampleDeps (sampleNode "master" 3 [⟨"data", 1073741824⟩])
        ).VolumeClaimTemplates.map (fun c =>
        (⟨c.Name, .PersistentVolumeClaim "claim-name-placeholder"⟩ : Volume)) ∧
    ∃ defaults,
      (withDefaultPVCs sampleDeps (sampleNode "master" 3 [⟨"data", 1073741824⟩])
        ).VolumeClaimTemplates =
        (sampleNode "master" 3 [⟨"data", 1073741824⟩]).VolumeClaimTemplates ++ defaults) :=
  ⟨by decide, by decide, by decide,
   claim_volumes sampleDeps sampleDataClaimES sampleParams sampleGenerators
    (sampleContexts sampleDataClaimES sampleParams) (by decide)
    (sampleNode "master" 3 [⟨"data", 1073741824⟩]) ⟨"data", 1073741824⟩ (by decide)
    (podSpecContext sampleDeps (replicaParams sampleDataClaimES sampleParams
      (withDefaultPVCs sampleDeps (sampleNode "master" 3 [⟨"data", 1073741824⟩])))
      sampleGenerators).1
    (by decide) (by decide)⟩

end ESPodSpec
